import Mathlib

/-!
Shallow embedding of the Leatt DLP agent's event pipeline and detection
engine, together with theorems checking the natural-language specification
against the code.  Python dictionaries are modelled as association lists,
Python floats as rationals, and machine integers as `Int`/`Nat`.  Persistence
(store writes) is recorded as lists of write descriptions where a claim needs
it and elided otherwise; logging is elided throughout.
-/

namespace Leatt

/-- A value stored in an event payload dictionary (`MonitorEvent.data`).
Mirrors the value kinds the collectors actually put into payloads:
`None`, ints, floats (as rationals), strings, booleans and string lists. -/
inductive Value where
  | vnone : Value
  | int : ℤ → Value
  | rat : ℚ → Value
  | str : String → Value
  | bool : Bool → Value
  | strList : List String → Value
  deriving DecidableEq

/-- Python truthiness of a payload value (`if event_data.get(...)`). -/
def Value.truthy : Value → Bool
  | .vnone => false
  | .int n => n ≠ 0
  | .rat q => q ≠ 0
  | .str s => s ≠ ""
  | .bool b => b
  | .strList l => l ≠ []

/-- Rendering of a payload value inside a Python f-string (used for the
cooldown key `f"{pattern_name}:{pid}"` and alert descriptions). -/
def Value.pyStr : Value → String
  | .vnone => "None"
  | .int n => toString n
  | .rat q => toString q
  | .str s => s
  | .bool b => if b then "True" else "False"
  | .strList l => toString l

/-- Numeric reading of a payload value for Python arithmetic comparisons
(`bool` counts as `0`/`1` as in Python); non-numeric values yield `none`. -/
def Value.asNum : Value → Option ℚ
  | .int n => some (n : ℚ)
  | .rat q => some q
  | .bool b => some (if b then 1 else 0)
  | _ => none

/-- Lookup in an association list modelling a Python `dict`. -/
def lookupA {α β : Type} [DecidableEq α] : List (α × β) → α → Option β
  | [], _ => none
  | (k, v) :: t, a => if a = k then some v else lookupA t a

/-- `d[k] = v` on an association list: the new binding shadows any old one. -/
def updateA {α β : Type} [DecidableEq α] (l : List (α × β)) (k : α) (v : β) :
    List (α × β) :=
  (k, v) :: l.filter (fun p => p.1 ≠ k)

/-- `d.pop(k, None)` / `del d[k]` on an association list. -/
def eraseA {α β : Type} [DecidableEq α] (l : List (α × β)) (k : α) :
    List (α × β) :=
  l.filter (fun p => p.1 ≠ k)

theorem lookupA_updateA_self {α β : Type} [DecidableEq α]
    (l : List (α × β)) (k : α) (v : β) : lookupA (updateA l k v) k = some v := by
  simp [updateA, lookupA]

theorem lookupA_updateA_ne {α β : Type} [DecidableEq α]
    (l : List (α × β)) (k k' : α) (v : β) (h : k' ≠ k) :
    lookupA (updateA l k v) k' = lookupA l k' := by
  induction l with
  | nil => simp [updateA, lookupA, h]
  | cons p t ih =>
    by_cases hk : p.1 = k
    · simp only [updateA, List.filter_cons, hk, decide_not] at ih ⊢
      simp only [decide_True, Bool.not_true, Bool.false_eq_true, if_false]
      simpa [lookupA, h, updateA, hk, fun h' : k' = p.1 => h (h'.trans hk)]
        using ih
    · simp only [updateA, List.filter_cons, decide_not] at ih ⊢
      by_cases hk' : k' = p.1
      · simp [lookupA, hk', hk, updateA, h]
      · simp only [lookupA, updateA, if_neg h, if_neg hk'] at ih ⊢
        simpa [lookupA, hk, hk', h] using ih

theorem lookupA_eraseA {α β : Type} [DecidableEq α]
    (l : List (α × β)) (k k' : α) :
    lookupA (eraseA l k) k' = if k' = k then none else lookupA l k' := by
  induction l with
  | nil => simp [eraseA, lookupA]
  | cons p t ih =>
    by_cases hk : p.1 = k
    · by_cases hk' : k' = k
      · simp_all [eraseA, lookupA, List.filter_cons]
      · simp_all [eraseA, lookupA, List.filter_cons,
          fun h : k' = p.1 => hk' (h.trans hk)]
    · by_cases hk' : k' = p.1
      · simp_all [eraseA, lookupA, List.filter_cons]
      · simp_all [eraseA, lookupA, List.filter_cons]

/-- Alert severity levels (`AlertSeverity` in `utils/database.py`, which is
not part of the monitored sources; the four levels are fixed by its users). -/
inductive AlertSeverity where
  | low | medium | high | critical
  deriving DecidableEq

/-- `MonitorEvent` from `core/daemon.py` (the module itself is absent from
the sources; the four fields and the keyword construction are fixed by every
collector call site, with `risk_score` omitted at some call sites and hence
defaulted). -/
structure MonitorEvent where
  source : String
  event_type : String
  data : List (String × Value)
  risk_score : ℚ := 0
  deriving DecidableEq

/-! ### Process collector (`core/process_monitor.py`) -/

/-- `ProcessInfo` dataclass from `core/process_monitor.py`.  Counters are
naturals, percentages and timestamps rationals. -/
structure ProcessInfo where
  pid : ℤ
  name : String
  path : Option String := none
  user : Option String := none
  cmdline : List String := []
  create_time : ℚ := 0
  cpu_percent : ℚ := 0
  memory_percent : ℚ := 0
  num_connections : ℕ := 0
  bytes_sent : ℕ := 0
  bytes_recv : ℕ := 0
  read_bytes : ℕ := 0
  write_bytes : ℕ := 0
  is_trusted : Bool := false
  risk_score : ℚ := 0
  hash_sha256 : Option String := none
  deriving DecidableEq

/-- Python's two-argument `min` on numbers (kept as an explicit conditional
so that concrete risk scores evaluate by kernel reduction). -/
def pymin (a b : ℚ) : ℚ := if a ≤ b then a else b

theorem pymin_eq_min (a b : ℚ) : pymin a b = min a b := by
  simp [pymin, min_def]

/-- The fixed `suspicious_patterns` list in `_calculate_risk_score`. -/
def suspiciousCmdlinePatterns : List String :=
  ["powershell", "cmd", "wget", "curl", "invoke-", "bypass", "hidden",
   "encodedcommand", "base64", "-enc", "-e ", "downloadstring",
   "iex", "invoke-expression", "net user", "mimikatz"]

/-- Occurrence of `pat` as a contiguous sublist of `s`. -/
def infixAux (pat : List Char) : List Char → Bool
  | [] => pat.isEmpty
  | c :: rest => pat.isPrefixOf (c :: rest) || infixAux pat rest

/-- ASCII lowering of a string, as Python's `str.lower` behaves on the
ASCII process names and paths involved (charwise `Char.toLower`). -/
def pyToLower (s : String) : String := ⟨s.data.map Char.toLower⟩

/-- Python's substring test `pat in s`. -/
def containsSubstr (s pat : String) : Bool :=
  infixAux pat.data s.data

/-- The command-line clause of `_calculate_risk_score`: the command line is
non-empty and its lowercased join contains one of the fixed patterns. -/
def cmdlineSuspicious (info : ProcessInfo) : Bool :=
  info.cmdline ≠ [] &&
    suspiciousCmdlinePatterns.any
      (fun pat => containsSubstr (pyToLower (String.intercalate " " info.cmdline)) pat)

/-- `ProcessMonitor._calculate_risk_score`, line for line.  Python's
`if not info.path` is true for both a missing and an empty path, hence the
`info.path.getD "" = ""` test. -/
def calculateRiskScore (info : ProcessInfo) : ℚ :=
  if info.is_trusted then
    let score : ℚ := 0
    let score := if info.num_connections > 100 then
        score + pymin 30 (((info.num_connections : ℚ) - 100) * (3/10)) else score
    let score := if info.write_bytes > 500 * 1024 * 1024 then score + 20 else score
    let score := if info.cpu_percent > 90 then score + 10 else score
    pymin 50 score
  else
    let score : ℚ := 0
    let score := if info.path.getD "" = "" then score + 20 else score
    let score := if info.num_connections > 10 then
        score + pymin 20 ((info.num_connections : ℚ) * (1/2)) else score
    let score := if info.memory_percent > 5 then
        score + pymin 15 info.memory_percent else score
    let score := if info.cpu_percent > 50 then
        score + pymin 15 ((info.cpu_percent - 50) * (3/10)) else score
    let score := if info.write_bytes > 50 * 1024 * 1024 then score + 15 else score
    let score := if cmdlineSuspicious info then score + 15 else score
    pymin 100 score

/-- Host-probe capabilities the process collector consumes: the trust
decision (`Whitelist.is_trusted`) and executable hashing
(`expand_path` + existence check + `compute_file_hash`, merged into one
`Option`-valued query since every call site starts from a `None` hash). -/
structure Probe where
  trust : String → Option String → Option String → Bool
  hashOf : String → Option String

/-- The mutable per-collector state of `ProcessMonitor`:
`_known_processes`, `_previous_io`, `_previous_net`, `_pid_fingerprints`. -/
structure PMState where
  known : List (ℤ × ProcessInfo) := []
  prevIo : List (ℤ × (ℕ × ℕ)) := []
  prevNet : List (ℤ × (ℕ × ℕ)) := []
  fingerprints : List (ℤ × (String × String × ℚ)) := []
  deriving DecidableEq

/-- Payload value for an optional string field (`None` when absent). -/
def optStr : Option String → Value
  | some s => .str s
  | none => .vnone

/-- The `new_process` event built in `_check_new_process`. -/
def newProcessEvent (info : ProcessInfo) (age : ℚ) : MonitorEvent :=
  { source := "process_monitor", event_type := "new_process",
    data := [("pid", .int info.pid), ("process_name", .str info.name),
             ("path", optStr info.path), ("user", optStr info.user),
             ("cmdline", .strList info.cmdline),
             ("is_trusted", .bool info.is_trusted),
             ("risk_score", .rat info.risk_score),
             ("process_age_seconds", .rat age)] }

/-- The `pid_hijack` event built in `_check_pid_hijacking`. -/
def hijackEvent (info : ProcessInfo) (old_name old_path : String) : MonitorEvent :=
  { source := "process_monitor", event_type := "pid_hijack",
    data := [("pid", .int info.pid), ("process_name", .str info.name),
             ("path", optStr info.path), ("old_name", .str old_name),
             ("old_path", .str old_path), ("is_trusted", .bool info.is_trusted),
             ("alert", .str "PID reused by different process - possible hijacking attempt")],
    risk_score := 80 }

/-- The `process_mutation` event built in `_check_pid_hijacking`. -/
def mutationEvent (info : ProcessInfo) (old_name old_path : String) : MonitorEvent :=
  { source := "process_monitor", event_type := "process_mutation",
    data := [("pid", .int info.pid), ("process_name", .str info.name),
             ("path", optStr info.path), ("old_name", .str old_name),
             ("old_path", .str old_path), ("is_trusted", .bool info.is_trusted),
             ("alert", .str "Process identity changed - possible code injection")],
    risk_score := 90 }

/-- `ProcessMonitor._check_new_process` (the `_save_process_to_db` write is
elided).  `now` is the `time.time()` reading; `process_age_seconds` is
`+inf` when `create_time ≤ 0`, so the recency test fails in that case. -/
def checkNewProcess (pr : Probe) (now : ℚ) (st : PMState) (info : ProcessInfo) :
    List MonitorEvent × PMState × ProcessInfo :=
  let hash : Option String :=
    match info.path with
    | some p =>
        if p ≠ "" ∧ p ∉ ["Registry", "MemCompression", "System", "Idle"]
        then pr.hashOf p else info.hash_sha256
    | none => info.hash_sha256
  let trusted := pr.trust info.name info.path hash
  let info1 := { info with hash_sha256 := hash, is_trusted := trusted }
  let fps' := updateA st.fingerprints info.pid
      (info.name, info.path.getD "", info.create_time)
  let info2 := { info1 with risk_score := calculateRiskScore info1 }
  let recent : Bool := info.create_time > 0 && now - info.create_time < 60
  let events :=
    if ¬ trusted ∧ recent = true
    then [newProcessEvent info2 (now - info.create_time)] else []
  (events, { st with fingerprints := fps' }, info2)

/-- `ProcessMonitor._check_pid_hijacking`: returns the emitted events, the
updated fingerprint table and the boolean result. -/
def checkPidHijacking (fps : List (ℤ × (String × String × ℚ)))
    (info : ProcessInfo) :
    List MonitorEvent × List (ℤ × (String × String × ℚ)) × Bool :=
  match lookupA fps info.pid with
  | none => ([], fps, false)
  | some (old_name, old_path, old_create_time) =>
    if info.create_time ≠ old_create_time then
      ([hijackEvent info old_name old_path],
       updateA fps info.pid (info.name, info.path.getD "", info.create_time),
       true)
    else if info.name ≠ old_name ∨ info.path.getD "" ≠ old_path then
      ([mutationEvent info old_name old_path], fps, true)
    else
      ([], fps, false)

/-- The `high_io` / `anomaly_trusted` event built in
`_check_process_behavior`. -/
def highIoEvent (info : ProcessInfo) (dr dw : ℤ) : MonitorEvent :=
  { source := "process_monitor",
    event_type := if info.is_trusted then "anomaly_trusted" else "high_io",
    data := [("pid", .int info.pid), ("process_name", .str info.name),
             ("path", optStr info.path), ("read_bytes_delta", .int dr),
             ("write_bytes_delta", .int dw),
             ("is_trusted", .bool info.is_trusted),
             ("alert", .str ("Unusual I/O activity from "
               ++ (if info.is_trusted then "trusted" else "untrusted")
               ++ " process"))],
    risk_score := if info.is_trusted then 40 else 60 }

/-- The `many_connections` event built in `_check_process_behavior`. -/
def manyConnectionsEvent (info : ProcessInfo) : MonitorEvent :=
  { source := "process_monitor", event_type := "many_connections",
    data := [("pid", .int info.pid), ("process_name", .str info.name),
             ("path", optStr info.path),
             ("num_connections", .int info.num_connections),
             ("is_trusted", .bool info.is_trusted),
             ("alert", .str ("Excessive network connections from "
               ++ (if info.is_trusted then "trusted" else "untrusted")
               ++ " process"))],
    risk_score := if info.is_trusted then 30 else 50 }

/-- `ProcessMonitor._check_process_behavior`: I/O deltas against
`_previous_io`, then the I/O and connection-count threshold events. -/
def checkProcessBehavior (st : PMState) (info : ProcessInfo) :
    List MonitorEvent × PMState :=
  let prev := (lookupA st.prevIo info.pid).getD (0, 0)
  let dr : ℤ := (info.read_bytes : ℤ) - prev.1
  let dw : ℤ := (info.write_bytes : ℤ) - prev.2
  let st1 := { st with
    prevIo := updateA st.prevIo info.pid (info.read_bytes, info.write_bytes) }
  let thr : ℤ := if info.is_trusted then 100 * 1024 * 1024 else 10 * 1024 * 1024
  let evs1 := if dr > thr ∨ dw > thr then [highIoEvent info dr dw] else []
  let cthr : ℕ := if info.is_trusted then 200 else 50
  let evs2 := if info.num_connections > cthr then [manyConnectionsEvent info] else []
  (evs1 ++ evs2, st1)

/-- The known-PID branch of `_scan_processes`: run `_check_pid_hijacking`;
if it returned true, handle the sample as a new arrival, otherwise refresh
trust, recompute the risk score and evaluate behavior. -/
def knownPidStep (pr : Probe) (now : ℚ) (st : PMState) (info : ProcessInfo) :
    List MonitorEvent × PMState × ProcessInfo :=
  let r := checkPidHijacking st.fingerprints info
  let st1 := { st with fingerprints := r.2.1 }
  if r.2.2 then
    let rn := checkNewProcess pr now st1 info
    (r.1 ++ rn.1, rn.2)
  else
    let trusted := pr.trust info.name info.path none
    let info1 := { info with is_trusted := trusted }
    let info2 := { info1 with risk_score := calculateRiskScore info1 }
    let rb := checkProcessBehavior st1 info2
    (r.1 ++ rb.1, rb.2, info2)

/-- Per-sample body of the `_scan_processes` loop, threading the emitted
events, the collector state and the accumulated `current_pids`. -/
def scanStep (pr : Probe) (now : ℚ)
    (acc : List MonitorEvent × PMState × List ℤ) (info : ProcessInfo) :
    List MonitorEvent × PMState × List ℤ :=
  let r :=
    if (lookupA acc.2.1.known info.pid).isNone
    then checkNewProcess pr now acc.2.1 info
    else knownPidStep pr now acc.2.1 info
  let st' := { r.2.1 with known := updateA r.2.1.known info.pid r.2.2 }
  (acc.1 ++ r.1, st', acc.2.2 ++ [info.pid])

/-- `ProcessMonitor._scan_processes` over an abstract snapshot: process each
sample, then drop terminated PIDs from `_known_processes`, `_previous_io`
and `_previous_net` (the code does not touch `_pid_fingerprints` here). -/
def scanProcesses (pr : Probe) (now : ℚ) (st : PMState)
    (snapshot : List ProcessInfo) : List MonitorEvent × PMState :=
  let f := snapshot.foldl (scanStep pr now) ([], st, [])
  let terminated := (f.2.1.known.map Prod.fst).filter
      (fun pid => ¬ f.2.2.contains pid)
  (f.1,
   { f.2.1 with
     known := f.2.1.known.filter (fun p => ¬ terminated.contains p.1),
     prevIo := f.2.1.prevIo.filter (fun p => ¬ terminated.contains p.1),
     prevNet := f.2.1.prevNet.filter (fun p => ¬ terminated.contains p.1) })

/-! ### Claim C1: the risk-scoring formula -/

/-- The risk-scoring function exactly as claim C1 words it: in the
untrusted branch the connection term `min(20, num_connections × 0.5)` and
the memory term `min(15, memory_pct)` are added unconditionally.  Written
from the spec sentence, to be compared with `calculateRiskScore`. -/
def riskScoreClaimC1 (info : ProcessInfo) : ℚ :=
  if info.is_trusted then
    pymin 50
      ((if info.num_connections > 100 then
          pymin 30 (((info.num_connections : ℚ) - 100) * (3/10)) else 0)
        + (if info.write_bytes > 500 * 1024 * 1024 then 20 else 0)
        + (if info.cpu_percent > 90 then 10 else 0))
  else
    pymin 100
      ((if info.path.getD "" = "" then 20 else 0)
        + pymin 20 ((info.num_connections : ℚ) * (1/2))
        + pymin 15 info.memory_percent
        + (if info.cpu_percent > 50 then
            pymin 15 ((info.cpu_percent - 50) * (3/10)) else 0)
        + (if info.write_bytes > 50 * 1024 * 1024 then 15 else 0)
        + (if cmdlineSuspicious info then 15 else 0))

/-- Claim C1 as amended: identical to `riskScoreClaimC1` except that the
connection term is added only when `num_connections > 10` and the memory
term only when `memory_pct > 5`, matching the code's guards. -/
def riskScoreAmendedC1 (info : ProcessInfo) : ℚ :=
  if info.is_trusted then
    pymin 50
      ((if info.num_connections > 100 then
          pymin 30 (((info.num_connections : ℚ) - 100) * (3/10)) else 0)
        + (if info.write_bytes > 500 * 1024 * 1024 then 20 else 0)
        + (if info.cpu_percent > 90 then 10 else 0))
  else
    pymin 100
      ((if info.path.getD "" = "" then 20 else 0)
        + (if info.num_connections > 10 then
            pymin 20 ((info.num_connections : ℚ) * (1/2)) else 0)
        + (if info.memory_percent > 5 then pymin 15 info.memory_percent else 0)
        + (if info.cpu_percent > 50 then
            pymin 15 ((info.cpu_percent - 50) * (3/10)) else 0)
        + (if info.write_bytes > 50 * 1024 * 1024 then 15 else 0)
        + (if cmdlineSuspicious info then 15 else 0))

/-- An untrusted process with a path and 2 connections: the code scores it
0 (the connection term is guarded by `num_connections > 10`), while the
claimed formula scores it `min(20, 2 × 0.5) = 1`. -/
def riskCe : ProcessInfo :=
  { pid := 1, name := "tool", path := some "/opt/tool", num_connections := 2 }

/-- C1 counterexample: at `riskCe` the code's `_calculate_risk_score`
disagrees with the formula claim C1 states (0 versus 1), because the code
adds the connection term only when `num_connections > 10`. -/
theorem calculateRiskScore_claimC1_counterexample :
    calculateRiskScore riskCe = 0 ∧ riskScoreClaimC1 riskCe = 1 := by
  constructor <;>
    · simp [calculateRiskScore, riskScoreClaimC1, riskCe, pymin,
        cmdlineSuspicious]
      try norm_num

/-- C1 (amended): `_calculate_risk_score` is the pure function of the claim
with the two extra guards the code imposes: the connection term applies only
when `num_connections > 10` and the memory term only when
`memory_pct > 5`. -/
theorem calculateRiskScore_eq_amendedC1 (info : ProcessInfo) :
    calculateRiskScore info = riskScoreAmendedC1 info := by
  simp only [calculateRiskScore, riskScoreAmendedC1]
  split_ifs <;> first | rfl | (congr 1; ring)

/-! ### File collector (`core/file_monitor.py`) -/

/-- Python's `s.endswith(post)`, via reversed prefix matching. -/
def pyEndsWith (s post : String) : Bool :=
  post.data.reverse.isPrefixOf s.data.reverse

/-- A row written by `db.add_file_event` (`_create_event` persists one such
row unconditionally). -/
structure FileEventRow where
  file_path : String
  event_type : String
  is_sensitive : Bool
  deriving DecidableEq

/-- `LeattFileHandler._is_sensitive_file` composed with the constructor's
lowering of the configured extension list: the lowercased path ends in one
of the lowercased configured extensions. -/
def isSensitiveFile (exts : List String) (path : String) : Bool :=
  (exts.map pyToLower).any (fun ext => pyEndsWith (pyToLower path) ext)

/-- `LeattFileHandler._create_event`: returns the store rows written and the
pipeline events queued.  `dest_path` is `none` except for moves; Python's
`if dest_path:` also skips an empty destination string.  The debug log of
the non-sensitive branch is elided. -/
def createEvent (exts : List String) (event_type src_path : String)
    (dest_path : Option String) : List FileEventRow × List MonitorEvent :=
  let sens0 := isSensitiveFile exts src_path
  let data0 : List (String × Value) :=
    [("file_path", .str src_path), ("event_type", .str event_type),
     ("is_sensitive", .bool sens0)]
  let r : Bool × List (String × Value) :=
    match dest_path with
    | some d =>
        if d ≠ "" then
          let data1 := data0 ++ [("dest_path", .str d)]
          if isSensitiveFile exts d then
            (true, updateA data1 "is_sensitive" (.bool true))
          else (sens0, data1)
        else (sens0, data0)
    | none => (sens0, data0)
  let rows : List FileEventRow := [⟨src_path, event_type, r.1⟩]
  let queued :=
    if r.1 then
      [{ source := "file_monitor", event_type := "file_" ++ event_type,
         data := r.2, risk_score := if r.1 then 30 else 0 : MonitorEvent }]
    else []
  (rows, queued)

/-! ### Claim C9: file events are persisted unconditionally and queued
exactly when sensitive -/

theorem pyEndsWith_empty (s : String) : pyEndsWith s "" = true := by
  simp [pyEndsWith, List.isPrefixOf]

theorem pyEndsWith_of_empty_left {post : String}
    (h : pyEndsWith "" post = true) : post = "" := by
  have hd : post.data.reverse = [] := by
    cases hr : post.data.reverse with
    | nil => rfl
    | cons c t =>
      rw [pyEndsWith, hr] at h
      simp [List.isPrefixOf, show ("" : String).data = [] from rfl] at h
  have : post.data = [] := by simpa using congrArg List.reverse hd
  exact String.ext (by simpa using this)

/-- If the empty path counts as sensitive (only possible when `""` is a
configured extension), every path counts as sensitive. -/
theorem isSensitiveFile_of_empty (exts : List String)
    (h : isSensitiveFile exts "" = true) (s : String) :
    isSensitiveFile exts s = true := by
  rcases List.any_eq_true.mp h with ⟨ext, hmem, hext⟩
  have : ext = "" := pyEndsWith_of_empty_left (by simpa using hext)
  exact List.any_eq_true.mpr ⟨ext, hmem, by simp [this, pyEndsWith_empty]⟩

/-- C9: `_create_event` writes exactly one raw store row whatever the
sensitivity; the event's sensitivity is the OR of source and (for moves)
destination sensitivity, where a path is sensitive when its lowercase form
ends in a configured extension; and a pipeline event — of kind
`file_<type>` with preliminary risk 30 — is queued iff that sensitivity
holds. -/
theorem fileMonitor_persist_and_emit (exts : List String)
    (etype src : String) (dest : Option String) :
    (createEvent exts etype src dest).1 =
      [⟨src, etype, isSensitiveFile exts src ||
        (match dest with
         | some d => isSensitiveFile exts d
         | none => false)⟩] ∧
    ((createEvent exts etype src dest).2.map MonitorEvent.risk_score =
      if (isSensitiveFile exts src ||
        (match dest with
         | some d => isSensitiveFile exts d
         | none => false)) = true
      then [30] else []) ∧
    ((createEvent exts etype src dest).2.map MonitorEvent.event_type =
      if (isSensitiveFile exts src ||
        (match dest with
         | some d => isSensitiveFile exts d
         | none => false)) = true
      then ["file_" ++ etype] else []) := by
  rcases dest with _ | d
  · by_cases hs : isSensitiveFile exts src = true <;>
      simp [createEvent, hs]
  · by_cases hd : d = ""
    · subst hd
      by_cases he : isSensitiveFile exts "" = true
      · have hs := isSensitiveFile_of_empty exts he src
        simp [createEvent, hs, he]
      · by_cases hs : isSensitiveFile exts src = true <;>
          simp [createEvent, hs, he]
    · by_cases hdd : isSensitiveFile exts d = true
      · simp [createEvent, hd, hdd]
      · by_cases hs : isSensitiveFile exts src = true <;>
          simp [createEvent, hd, hdd, hs]

/-! ### Claim C2: PID hijack / mutation handling -/

theorem checkNewProcess_no_hijack_mutation (pr : Probe) (now : ℚ)
    (st : PMState) (info : ProcessInfo) :
    (checkNewProcess pr now st info).1.countP
        (fun e => e.event_type == "pid_hijack") = 0 ∧
    (checkNewProcess pr now st info).1.countP
        (fun e => e.event_type == "process_mutation") = 0 := by
  simp only [checkNewProcess]
  split_ifs <;> simp [newProcessEvent]

theorem checkProcessBehavior_no_hijack_mutation (st : PMState)
    (info : ProcessInfo) :
    (checkProcessBehavior st info).1.countP
        (fun e => e.event_type == "pid_hijack") = 0 ∧
    (checkProcessBehavior st info).1.countP
        (fun e => e.event_type == "process_mutation") = 0 := by
  simp only [checkProcessBehavior]
  split_ifs <;>
    simp [highIoEvent, manyConnectionsEvent] <;>
    split_ifs <;> simp

/-- C2: for a PID that already holds a fingerprint — if the new sample's
`create_time` differs, the known-PID step emits exactly one `pid_hijack`
event (risk 80, carrying the old name and path), refreshes the fingerprint
and continues as a new arrival; if `create_time` matches but name or path
differs it emits a `process_mutation` event (risk 90) and no `pid_hijack`;
if all three fields match it emits neither. -/
theorem processMonitor_pid_identity (pr : Probe) (now : ℚ) (st : PMState)
    (info : ProcessInfo) (old_name old_path : String) (old_ct : ℚ)
    (h : lookupA st.fingerprints info.pid = some (old_name, old_path, old_ct)) :
    (info.create_time ≠ old_ct →
      (knownPidStep pr now st info).1 =
        hijackEvent info old_name old_path ::
          (checkNewProcess pr now
            { st with fingerprints := (updateA st.fingerprints info.pid
                (info.name, info.path.getD "", info.create_time)) } info).1 ∧
      (knownPidStep pr now st info).1.countP
        (fun e => e.event_type == "pid_hijack") = 1 ∧
      (hijackEvent info old_name old_path).risk_score = 80 ∧
      lookupA (hijackEvent info old_name old_path).data "old_name" =
        some (.str old_name) ∧
      lookupA (hijackEvent info old_name old_path).data "old_path" =
        some (.str old_path) ∧
      lookupA (knownPidStep pr now st info).2.1.fingerprints info.pid =
        some (info.name, info.path.getD "", info.create_time)) ∧
    (info.create_time = old_ct →
      (info.name ≠ old_name ∨ info.path.getD "" ≠ old_path) →
      (knownPidStep pr now st info).1.countP
        (fun e => e.event_type == "process_mutation") = 1 ∧
      (knownPidStep pr now st info).1.countP
        (fun e => e.event_type == "pid_hijack") = 0 ∧
      (knownPidStep pr now st info).1.head? =
        some (mutationEvent info old_name old_path) ∧
      (mutationEvent info old_name old_path).risk_score = 90) ∧
    (info.create_time = old_ct → info.name = old_name →
      info.path.getD "" = old_path →
      (knownPidStep pr now st info).1.countP
        (fun e => e.event_type == "pid_hijack") = 0 ∧
      (knownPidStep pr now st info).1.countP
        (fun e => e.event_type == "process_mutation") = 0) := by
  refine ⟨fun hct => ?_, fun hct hne => ?_, fun hct hn hp => ?_⟩
  · have hstep : knownPidStep pr now st info =
        (hijackEvent info old_name old_path ::
          (checkNewProcess pr now
            { st with fingerprints := (updateA st.fingerprints info.pid
                (info.name, info.path.getD "", info.create_time)) } info).1,
         (checkNewProcess pr now
            { st with fingerprints := (updateA st.fingerprints info.pid
                (info.name, info.path.getD "", info.create_time)) } info).2) := by
      simp [knownPidStep, checkPidHijacking, h, hct]
    refine ⟨by rw [hstep], ?_, rfl, rfl, by simp [hijackEvent, lookupA], ?_⟩
    · rw [hstep]
      simp only [List.countP_cons]
      rw [(checkNewProcess_no_hijack_mutation pr now _ info).1]
      simp [hijackEvent]
    · rw [hstep]
      simp only
      rw [show (checkNewProcess pr now
          { st with fingerprints := (updateA st.fingerprints info.pid
              (info.name, info.path.getD "", info.create_time)) } info).2.1.fingerprints
          = updateA (updateA st.fingerprints info.pid
              (info.name, info.path.getD "", info.create_time)) info.pid
              (info.name, info.path.getD "", info.create_time) from rfl]
      exact lookupA_updateA_self _ _ _
  · have hne' : info.name ≠ old_name ∨ ¬ info.path.getD "" = old_path := hne
    have hstep : knownPidStep pr now st info =
        (mutationEvent info old_name old_path ::
          (checkNewProcess pr now st info).1,
         (checkNewProcess pr now st info).2) := by
      simp [knownPidStep, checkPidHijacking, h, hct, hne']
    refine ⟨?_, ?_, by rw [hstep]; rfl, rfl⟩
    · rw [hstep]
      simp only [List.countP_cons]
      rw [(checkNewProcess_no_hijack_mutation pr now st info).2]
      simp [mutationEvent]
    · rw [hstep]
      simp only [List.countP_cons]
      rw [(checkNewProcess_no_hijack_mutation pr now st info).1]
      simp [mutationEvent]
  · have hstep : knownPidStep pr now st info =
        ((checkProcessBehavior st
            { info with
              is_trusted := pr.trust info.name info.path none,
              risk_score := calculateRiskScore
                { info with is_trusted := pr.trust info.name info.path none } }).1,
         (checkProcessBehavior st
            { info with
              is_trusted := pr.trust info.name info.path none,
              risk_score := calculateRiskScore
                { info with is_trusted := pr.trust info.name info.path none } }).2,
         { info with
           is_trusted := pr.trust info.name info.path none,
           risk_score := calculateRiskScore
             { info with is_trusted := pr.trust info.name info.path none } }) := by
      simp [knownPidStep, checkPidHijacking, h, hct, hn, hp]
    rw [hstep]
    exact checkProcessBehavior_no_hijack_mutation _ _

/-- C2 witness: PID 7 fingerprinted as `("a", "/bin/a", 100)` is seen again
with `create_time` 200 — the hijack branch of `processMonitor_pid_identity`
applies. -/
theorem processMonitor_pid_identity_witness :
    (knownPidStep ⟨fun _ _ _ => false, fun _ => none⟩ 1000
        { fingerprints := [(7, ("a", "/bin/a", 100))] }
        { pid := 7, name := "b", path := some "/bin/b",
          create_time := 200 }).1.countP
      (fun e => e.event_type == "pid_hijack") = 1 :=
  ((processMonitor_pid_identity ⟨fun _ _ _ => false, fun _ => none⟩ 1000
      { fingerprints := [(7, ("a", "/bin/a", 100))] }
      { pid := 7, name := "b", path := some "/bin/b", create_time := 200 }
      "a" "/bin/a" 100 (by simp [lookupA])).1 (by norm_num)).2.1

/-! ### Claim C6: terminated PIDs (code bug: fingerprints survive) -/

/-- Probe used by the concrete C6 scan: nothing is trusted, hashing fails. -/
def c6Probe : Probe := ⟨fun _ _ _ => false, fun _ => none⟩

/-- Collector state holding PID 7 in all four per-PID tables. -/
def c6State : PMState :=
  { known := [(7, { pid := 7, name := "a", path := some "/bin/a",
                    create_time := 100 })],
    prevIo := [(7, (5, 6))],
    prevNet := [(7, (1, 2))],
    fingerprints := [(7, ("a", "/bin/a", 100))] }

/-- C6, demonstrating the divergence: a scan whose snapshot no longer
contains PID 7 emits no event and removes the PID from `_known_processes`,
`_previous_io` and `_previous_net`, but its `_pid_fingerprints` entry
survives, although the spec says the fingerprint is dropped on
termination. -/
theorem scanProcesses_terminated_keeps_fingerprint :
    (scanProcesses c6Probe 1000 c6State []).1 = [] ∧
    lookupA (scanProcesses c6Probe 1000 c6State []).2.known 7 = none ∧
    lookupA (scanProcesses c6Probe 1000 c6State []).2.prevIo 7 = none ∧
    lookupA (scanProcesses c6Probe 1000 c6State []).2.prevNet 7 = none ∧
    lookupA (scanProcesses c6Probe 1000 c6State []).2.fingerprints 7 =
      some ("a", "/bin/a", 100) := by
  refine ⟨rfl, ?_, ?_, ?_, ?_⟩ <;>
    simp [scanProcesses, c6State, lookupA]

/-! ### Trust registry (`trust/whitelist.py`, `utils/platform.py`) -/

/-- Python's `s.startswith(pre)`. -/
def pyStartsWith (s pre : String) : Bool :=
  pre.data.isPrefixOf s.data

/-- The Windows `system_processes` list of `_load_system_defaults`. -/
def windowsSystemProcesses : List String :=
  ["System", "smss.exe", "csrss.exe", "wininit.exe", "services.exe",
   "lsass.exe", "svchost.exe", "explorer.exe", "taskhostw.exe", "dwm.exe",
   "conhost.exe", "RuntimeBroker.exe", "SearchHost.exe",
   "ShellExperienceHost.exe", "StartMenuExperienceHost.exe", "sihost.exe",
   "fontdrvhost.exe", "WmiPrvSE.exe", "dllhost.exe", "ctfmon.exe",
   "SecurityHealthService.exe", "MsMpEng.exe", "NisSrv.exe", "spoolsv.exe",
   "audiodg.exe", "SearchIndexer.exe", "TextInputHost.exe",
   "ApplicationFrameHost.exe", "SystemSettings.exe", "SettingSyncHost.exe",
   "backgroundTaskHost.exe", "CompPkgSrv.exe", "LockApp.exe", "Registry",
   "MemCompression", "Idle", "chrome.exe", "msedge.exe", "firefox.exe",
   "brave.exe", "opera.exe", "vivaldi.exe", "duckduckgo.exe", "Code.exe",
   "cursor.exe", "Cursor.exe", "node.exe", "python.exe", "pythonw.exe",
   "git.exe", "WindowsTerminal.exe", "powershell.exe", "cmd.exe", "wsl.exe",
   "docker.exe", "Docker Desktop.exe", "Spotify.exe", "Discord.exe",
   "slack.exe", "Teams.exe", "Zoom.exe", "OneDrive.exe", "Dropbox.exe",
   "Steam.exe", "EpicGamesLauncher.exe", "1Password.exe", "Bitwarden.exe",
   "KeePass.exe", "Notion.exe", "Obsidian.exe", "Postman.exe", "vlc.exe",
   "NVIDIA Share.exe", "nvcontainer.exe", "nvidia-smi.exe", "amdow.exe",
   "RadeonSoftware.exe"]

/-- The Unix `system_processes` list of `_load_system_defaults`. -/
def unixSystemProcesses : List String :=
  ["systemd", "init", "kthreadd", "kworker", "ksoftirqd", "migration",
   "rcu_sched", "watchdog", "bash", "sh", "zsh", "fish", "sshd", "cron",
   "dbus-daemon", "NetworkManager", "pulseaudio", "pipewire", "Xorg",
   "gdm", "lightdm", "gnome-shell", "kwin"]

/-- `Whitelist._load_system_defaults`: the OS list, lowercased (the Python
set is modelled as a deduplicated-irrelevant list; only membership is
used). -/
def loadSystemDefaults (isWin : Bool) : List String :=
  (if isWin then windowsSystemProcesses else unixSystemProcesses).map pyToLower

/-- The Windows / Unix `system_paths` lists of
`PlatformUtils.is_system_process`. -/
def systemPathsOf (isWin : Bool) : List String :=
  if isWin then
    ["c:\\windows\\", "c:\\program files\\", "c:\\program files (x86)\\"]
  else
    ["/usr/bin/", "/usr/sbin/", "/bin/", "/sbin/", "/usr/lib/"]

/-- `PlatformUtils.is_system_process` on a present path: the lowercased
path string starts with one of the platform system prefixes.  (`Path(...)`
round-tripping is modelled as the identity on the path string.) -/
def isSystemProcess (isWin : Bool) (path : String) : Bool :=
  (systemPathsOf isWin).any (fun sp => pyStartsWith (pyToLower path) sp)

/-- `WhitelistEntry` dataclass (the `added_at` timestamp is elided). -/
structure WhitelistEntry where
  name : String
  path : Option String := none
  hash_sha256 : Option String := none
  publisher : Option String := none
  added_by : String := "system"
  reason : Option String := none
  deriving DecidableEq

/-- The state of a `Whitelist` instance: the in-memory cache, the compiled
built-in set, and the store's durable trust lookup
(`db.is_process_trusted`, from the out-of-scope store module) as an
oracle. -/
structure WhitelistState where
  cache : List (String × WhitelistEntry) := []
  system_processes : List String
  storeTrusted : String → Option String → Option String → Bool

/-- The cache key `f"{name_lower}:{path or ''}:{hash_sha256 or ''}"`. -/
def cacheKey (name : String) (path hash : Option String) : String :=
  pyToLower name ++ ":" ++ path.getD "" ++ ":" ++ hash.getD ""

/-- `Whitelist.is_trusted`: the four-layer decision, returning the boolean
and the (possibly cache-extended) new state.  Python's `if path:` skips an
empty path string. -/
def isTrustedW (isWin : Bool) (st : WhitelistState) (name : String)
    (path hash : Option String) : Bool × WhitelistState :=
  let name_lower := pyToLower name
  if st.system_processes.contains name_lower then (true, st)
  else if (match path with
           | some p => p ≠ "" && isSystemProcess isWin p
           | none => false) then (true, st)
  else
    let key := cacheKey name path hash
    if (lookupA st.cache key).isSome then (true, st)
    else if st.storeTrusted name path hash then
      (true, { st with cache := (updateA st.cache key
        { name := name, path := path, hash_sha256 := hash }) })
    else (false, st)

/-! ### Claim C8: the layered trust decision -/

theorem isSystemProcess_empty (isWin : Bool) :
    isSystemProcess isWin "" = false := by
  cases isWin <;> decide

/-- C8: `is_trusted` accepts exactly when one of the four layers accepts —
built-in set membership of the lowercased name, a present path under a
platform system prefix, a cache hit on the `(name, path, hash)` key, or the
durable store lookup — and when only the store layer accepts, the cache is
populated for that key. -/
theorem whitelist_isTrusted_layers (isWin : Bool) (st : WhitelistState)
    (name : String) (path hash : Option String) :
    ((isTrustedW isWin st name path hash).1 =
      (st.system_processes.contains (pyToLower name) ||
       (match path with
        | some p => isSystemProcess isWin p
        | none => false) ||
       (lookupA st.cache (cacheKey name path hash)).isSome ||
       st.storeTrusted name path hash)) ∧
    (st.system_processes.contains (pyToLower name) = false →
     (match path with
      | some p => isSystemProcess isWin p
      | none => false) = false →
     (lookupA st.cache (cacheKey name path hash)).isSome = false →
     st.storeTrusted name path hash = true →
     lookupA (isTrustedW isWin st name path hash).2.cache
        (cacheKey name path hash) =
       some { name := name, path := path, hash_sha256 := hash }) := by
  have hpath : (match path with
      | some p => p ≠ "" && isSystemProcess isWin p
      | none => false) =
      (match path with
       | some p => isSystemProcess isWin p
       | none => false) := by
    rcases path with _ | p
    · rfl
    · by_cases hp : p = ""
      · simp [hp, isSystemProcess_empty]
      · simp [hp]
  constructor
  · simp only [isTrustedW, hpath]
    split_ifs with h1 h2 h3 h4 <;> simp_all
  · intro h1 h2 h3 h4
    simp only [isTrustedW, hpath, h1, h2, h3, h4]
    simp only [Bool.false_eq_true, if_false, if_true]
    exact lookupA_updateA_self _ _ _

/-- C8 witness: on Unix, `myapp` (not built-in, home-directory path, empty
cache) is accepted by the store oracle, so `is_trusted` returns true and
caches the key. -/
theorem whitelist_isTrusted_layers_witness :
    (isTrustedW false
        { cache := [], system_processes := loadSystemDefaults false,
          storeTrusted := fun n _ _ => n == "myapp" }
        "myapp" (some "/home/u/myapp") none).1 = true ∧
    lookupA (isTrustedW false
        { cache := [], system_processes := loadSystemDefaults false,
          storeTrusted := fun n _ _ => n == "myapp" }
        "myapp" (some "/home/u/myapp") none).2.cache
      (cacheKey "myapp" (some "/home/u/myapp") none) =
      some { name := "myapp", path := some "/home/u/myapp",
             hash_sha256 := none } := by
  have h := whitelist_isTrusted_layers false
      { cache := [], system_processes := loadSystemDefaults false,
        storeTrusted := fun n _ _ => n == "myapp" }
      "myapp" (some "/home/u/myapp") none
  refine ⟨?_, h.2 (by decide) (by decide) (by simp [lookupA]) (by decide)⟩
  rw [h.1]
  decide

/-! ### Network collector (`core/network_monitor.py`) -/

/-- Python's `round(q, 2)` (modelled as round-half-up on the scaled value;
the tie-to-even difference of float `round` is immaterial here). -/
def pyRound2 (q : ℚ) : ℚ := (round (q * 100) : ℤ) / 100

/-- The `high_upload` event built in `_check_upload_rate`.
`max_upload_bytes_per_min = config.max_upload_mb_per_min × 1024 × 1024`. -/
def highUploadEvent (maxUploadMb : ℤ) (pid : ℤ) (process_name : String)
    (bytes_in_window : ℤ) : MonitorEvent :=
  { source := "network_monitor", event_type := "high_upload",
    data := [("pid", .int pid), ("process_name", .str process_name),
             ("bytes_uploaded", .int bytes_in_window),
             ("mb_uploaded",
              .rat (pyRound2 ((bytes_in_window : ℚ) / (1024 * 1024)))),
             ("threshold_mb", .int maxUploadMb)],
    risk_score := 70 }

/-- `NetworkMonitor._check_upload_rate` for one PID: append the new
`(now, cumulative_sent)` sample, trim the ring to the last 60 seconds, and
emit one `high_upload` event when the ring spans more than the threshold.
Returns the events emitted and the new ring. -/
def checkUploadRate (maxUploadMb : ℤ) (now : ℚ) (tracking : List (ℚ × ℤ))
    (pid : ℤ) (process_name : String) (bytes_sent : ℤ) :
    List MonitorEvent × List (ℚ × ℤ) :=
  let tr := (tracking ++ [(now, bytes_sent)]).filter (fun s => s.1 > now - 60)
  let events :=
    if 2 ≤ tr.length then
      let oldest := (tr.head?).getD (0, 0)
      let newest := (tr.getLast?).getD (0, 0)
      let bytes_in_window := newest.2 - oldest.2
      if bytes_in_window > maxUploadMb * 1024 * 1024 then
        [highUploadEvent maxUploadMb pid process_name bytes_in_window]
      else []
    else []
  (events, tr)

/-! ### Claim C7: the upload-rate window -/

/-- C7 counterexample: PID 9 with ring `[(0, 0)]` sampled at `t = 30` with
60 MiB cumulative sent (threshold 50) emits the `high_upload` event, but
its payload keys are `mb_uploaded` / `threshold_mb` — the key
`mib_uploaded` the claim requires is absent. -/
theorem networkMonitor_upload_keys_counterexample :
    ((checkUploadRate 50 30 [(0, 0)] 9 "exfil" (60 * 1024 * 1024)).1.map
        (fun e => e.data.map Prod.fst)) =
      [["pid", "process_name", "bytes_uploaded", "mb_uploaded",
        "threshold_mb"]] ∧
    ((checkUploadRate 50 30 [(0, 0)] 9 "exfil" (60 * 1024 * 1024)).1.map
        (fun e => lookupA e.data "mib_uploaded")) = [none] := by
  constructor <;>
    · simp [checkUploadRate, highUploadEvent, lookupA]
      norm_num
      try decide

/-- C7 (amended): the ring keeps only samples from the last 60 seconds, and
whenever the trimmed ring holds at least 2 samples with
`newest − oldest > max_upload_mb_per_min × 1 MiB` the collector emits
exactly one `high_upload` event with risk 70 whose payload keys are
`pid`, `process_name`, `bytes_uploaded`, `mb_uploaded` and `threshold_mb`
(not `mib_uploaded` / `threshold_mib`); otherwise it emits nothing. -/
theorem networkMonitor_upload_window (maxUploadMb : ℤ) (now : ℚ)
    (tracking : List (ℚ × ℤ)) (pid : ℤ) (process_name : String)
    (bytes_sent : ℤ) :
    (∀ s ∈ (checkUploadRate maxUploadMb now tracking pid process_name
        bytes_sent).2, now - 60 < s.1) ∧
    ((2 ≤ (checkUploadRate maxUploadMb now tracking pid process_name
          bytes_sent).2.length ∧
      (((checkUploadRate maxUploadMb now tracking pid process_name
          bytes_sent).2.getLast?).getD (0, 0)).2 -
        (((checkUploadRate maxUploadMb now tracking pid process_name
          bytes_sent).2.head?).getD (0, 0)).2 >
        maxUploadMb * 1024 * 1024) →
      ((checkUploadRate maxUploadMb now tracking pid process_name
          bytes_sent).1.map MonitorEvent.event_type = ["high_upload"] ∧
       (checkUploadRate maxUploadMb now tracking pid process_name
          bytes_sent).1.map MonitorEvent.risk_score = [70] ∧
       (checkUploadRate maxUploadMb now tracking pid process_name
          bytes_sent).1.map (fun e => e.data.map Prod.fst) =
        [["pid", "process_name", "bytes_uploaded", "mb_uploaded",
          "threshold_mb"]])) ∧
    (¬ (2 ≤ (checkUploadRate maxUploadMb now tracking pid process_name
          bytes_sent).2.length ∧
      (((checkUploadRate maxUploadMb now tracking pid process_name
          bytes_sent).2.getLast?).getD (0, 0)).2 -
        (((checkUploadRate maxUploadMb now tracking pid process_name
          bytes_sent).2.head?).getD (0, 0)).2 >
        maxUploadMb * 1024 * 1024) →
      (checkUploadRate maxUploadMb now tracking pid process_name
          bytes_sent).1 = []) := by
  refine ⟨?_, ?_, ?_⟩
  · intro s hs
    simp only [checkUploadRate] at hs
    have := List.of_mem_filter hs
    simpa [gt_iff_lt] using this
  · intro h
    simp only [checkUploadRate] at h ⊢
    rw [if_pos h.1, if_pos h.2]
    simp [highUploadEvent]
  · intro h
    simp only [checkUploadRate] at h ⊢
    by_cases h1 : 2 ≤ ((tracking ++ [(now, bytes_sent)]).filter
        (fun s => s.1 > now - 60)).length
    · rw [if_pos h1]
      rw [if_neg]
      intro h2
      exact h ⟨h1, h2⟩
    · rw [if_neg h1]

/-- C7 witness: the counterexample input satisfies the window condition, so
the amended theorem yields the single `high_upload` emission. -/
theorem networkMonitor_upload_window_witness :
    (checkUploadRate 50 30 [(0, 0)] 9 "exfil" (60 * 1024 * 1024)).1.map
        MonitorEvent.event_type = ["high_upload"] ∧
    (checkUploadRate 50 30 [(0, 0)] 9 "exfil" (60 * 1024 * 1024)).1.map
        MonitorEvent.risk_score = [70] :=
  ⟨((networkMonitor_upload_window 50 30 [(0, 0)] 9 "exfil"
      (60 * 1024 * 1024)).2.1 (by norm_num [checkUploadRate])).1,
   ((networkMonitor_upload_window 50 30 [(0, 0)] 9 "exfil"
      (60 * 1024 * 1024)).2.1 (by norm_num [checkUploadRate])).2.1⟩

/-! ### Heuristics engine (`detection/heuristics.py`)

The recorded per-event dictionaries always carry the four (resp. three)
keys `_record_*_event` writes, so they are embedded as structures whose
fields hold the raw payload `Value`s.  Where a checker would raise a Python
exception on a malformed value (e.g. `.lower()` on a non-string), the
`analyze` loop's per-pattern `except` makes the pattern equivalent to a
non-match, which is how the checkers below model it. -/

/-- One entry of `ProcessActivity.file_accesses`. -/
structure FileAccess where
  path : Value
  ftype : Value
  timestamp : ℚ
  is_sensitive : Value
  deriving DecidableEq

/-- One entry of `ProcessActivity.network_events`. -/
structure NetRecord where
  remote_address : Value
  remote_port : Value
  bytes_uploaded : Value
  timestamp : ℚ
  deriving DecidableEq

/-- One entry of `ProcessActivity.registry_events`. -/
structure RegRecord where
  key_path : Value
  change_type : Value
  timestamp : ℚ
  deriving DecidableEq

/-- `ProcessActivity` from `detection/heuristics.py`.  `name` holds the raw
`process_name` payload value; `unique_destinations` is the set of raw
`remote_address` values (insertion-deduplicated list). -/
structure ProcessActivity where
  pid : Value
  name : Value
  first_seen : ℚ
  file_accesses : List FileAccess := []
  network_events : List NetRecord := []
  registry_events : List RegRecord := []
  sensitive_files_accessed : ℕ := 0
  bytes_uploaded : ℚ := 0
  unique_destinations : List Value := []
  risk_score : ℚ := 0
  deriving DecidableEq

/-- `HeuristicPattern` (the `conditions` dict of `_load_patterns` holds
constants that are inlined into the checkers below; the per-pattern
`cooldown_seconds` field is always the default 60). -/
structure HPattern where
  name : String
  description : String
  risk_score : ℚ
  deriving DecidableEq

/-- The nine patterns built by `_load_patterns`, in order. -/
def heuristicPatterns : List HPattern :=
  [⟨"exfiltration_chain",
    "New process accessing sensitive files and uploading data", 80⟩,
   ⟨"credential_theft", "Process accessing browser credential files", 90⟩,
   ⟨"rapid_file_enumeration", "Process rapidly accessing many files", 60⟩,
   ⟨"staging_behavior",
    "Process copying files to temp folder before network activity", 70⟩,
   ⟨"registry_persistence", "New process modifying startup registry keys", 85⟩,
   ⟨"multi_destination_upload",
    "Process uploading to multiple unique destinations", 65⟩,
   ⟨"ssh_key_access", "Non-SSH process accessing SSH keys", 75⟩,
   ⟨"trusted_process_anomaly",
    "Trusted process exhibiting unusual behavior (potential hijacking/injection)",
    70⟩,
   ⟨"pid_hijack_attempt",
    "Process identity changed or PID reused suspiciously", 95⟩]

/-- `dict.get` with a default on a payload. -/
def vGetD (d : List (String × Value)) (k : String) (dflt : Value) : Value :=
  (lookupA d k).getD dflt

/-- Keep the last `n` entries of a buffer (`lst[-n:]`). -/
def takeLast {α : Type} (n : ℕ) (l : List α) : List α :=
  l.drop (l.length - n)

/-- `_record_file_event`: append the entry, bump the sensitive counter on a
truthy `is_sensitive`, trim to the last 100 entries. -/
def recordFileEvent (now : ℚ) (a : ProcessActivity)
    (d : List (String × Value)) : ProcessActivity :=
  let entry : FileAccess :=
    ⟨vGetD d "file_path" .vnone, vGetD d "event_type" .vnone, now,
     vGetD d "is_sensitive" (.bool false)⟩
  let fa := a.file_accesses ++ [entry]
  { a with
    file_accesses := if 100 < fa.length then takeLast 100 fa else fa,
    sensitive_files_accessed :=
      if (vGetD d "is_sensitive" .vnone).truthy
      then a.sensitive_files_accessed + 1 else a.sensitive_files_accessed }

/-- `_record_network_event`: append the entry, accumulate truthy
`bytes_uploaded` (numeric in every collector payload), record the
destination, trim to the last 100 entries. -/
def recordNetworkEvent (now : ℚ) (a : ProcessActivity)
    (d : List (String × Value)) : ProcessActivity :=
  let entry : NetRecord :=
    ⟨vGetD d "remote_address" .vnone, vGetD d "remote_port" .vnone,
     vGetD d "bytes_uploaded" (.int 0), now⟩
  let ne := a.network_events ++ [entry]
  let ra := vGetD d "remote_address" .vnone
  { a with
    network_events := if 100 < ne.length then takeLast 100 ne else ne,
    bytes_uploaded :=
      if (vGetD d "bytes_uploaded" .vnone).truthy
      then a.bytes_uploaded + ((vGetD d "bytes_uploaded" .vnone).asNum.getD 0)
      else a.bytes_uploaded,
    unique_destinations :=
      if ra.truthy then
        (if a.unique_destinations.contains ra then a.unique_destinations
         else a.unique_destinations ++ [ra])
      else a.unique_destinations }

/-- `_record_registry_event`: append the entry, trim to the last 50. -/
def recordRegistryEvent (now : ℚ) (a : ProcessActivity)
    (d : List (String × Value)) : ProcessActivity :=
  let entry : RegRecord :=
    ⟨vGetD d "key_path" .vnone, vGetD d "change_type" .vnone, now⟩
  let re := a.registry_events ++ [entry]
  { a with registry_events := if 50 < re.length then takeLast 50 re else re }

/-- `_check_exfiltration_chain` with its condition constants. -/
def checkExfiltrationChain (now : ℚ) (a : ProcessActivity) : Bool :=
  ¬ ((now - a.first_seen) / 60 > 5) &&
  ¬ (a.sensitive_files_accessed < 1) &&
  ¬ (a.bytes_uploaded < 1024 * 1024)

/-- The `credential_file_patterns` constant. -/
def credentialFilePatterns : List String :=
  ["Login Data", "cookies.sqlite", "key4.db", "logins.json", "Cookies"]

/-- The loop of `_check_credential_theft`: scan the file accesses in order;
a non-string `path` raises (`.lower()`), which the per-pattern `except`
turns into a non-match. -/
def credentialTheftAux : List FileAccess → Bool
  | [] => false
  | f :: rest =>
    match f.path with
    | .str s =>
        if credentialFilePatterns.any
            (fun cp => containsSubstr (pyToLower s) (pyToLower cp))
        then true else credentialTheftAux rest
    | _ => false

/-- `_check_credential_theft`. -/
def checkCredentialTheft (a : ProcessActivity) : Bool :=
  credentialTheftAux a.file_accesses

/-- `_check_rapid_enumeration`: at least 50 recorded accesses in the last
60 seconds. -/
def checkRapidEnumeration (now : ℚ) (a : ProcessActivity) : Bool :=
  50 ≤ (a.file_accesses.filter (fun f => f.timestamp > now - 60)).length

/-- The `temp_patterns` constant of `_check_staging_behavior`. -/
def tempPatterns : List String := ["/tmp/", "\\temp\\", "\\tmp\\", "/var/tmp/"]

/-- The `temp_writes` comprehension of `_check_staging_behavior`; `none`
models the exception a non-string path of a write-typed entry raises. -/
def stagingWrites : List FileAccess → Option (List FileAccess)
  | [] => some []
  | f :: rest =>
    if f.ftype = Value.str "created" ∨ f.ftype = Value.str "modified" then
      match f.path with
      | .str s =>
          match stagingWrites rest with
          | some l =>
              some (if tempPatterns.any
                  (fun tp => containsSubstr (pyToLower s) tp)
                then f :: l else l)
          | none => none
      | _ => none
    else stagingWrites rest

/-- The `network_after_staging` comprehension: any network entry after the
latest temp write with positive `bytes_uploaded`; `none` models the
exception a non-numeric `bytes_uploaded` raises. -/
def afterStagingAux (latest : ℚ) : List NetRecord → Option Bool
  | [] => some false
  | n :: rest =>
    if n.timestamp > latest then
      match n.bytes_uploaded.asNum with
      | some q =>
          match afterStagingAux latest rest with
          | some b => some (b || q > 0)
          | none => none
      | none => none
    else afterStagingAux latest rest

/-- `_check_staging_behavior`. -/
def checkStagingBehavior (a : ProcessActivity) : Bool :=
  match stagingWrites a.file_accesses with
  | none => false
  | some [] => false
  | some (w :: ws) =>
      let latest := ((w :: ws).map FileAccess.timestamp).foldl max w.timestamp
      (afterStagingAux latest a.network_events).getD false

/-- The loop of `_check_registry_persistence` over the recorded registry
events. -/
def registryPersistenceAux : List RegRecord → Bool
  | [] => false
  | r :: rest =>
    match r.key_path with
    | .str s =>
        if ["run", "runonce"].any
            (fun rp => containsSubstr (pyToLower s) rp)
        then true else registryPersistenceAux rest
    | _ => false

/-- `_check_registry_persistence` with its condition constants. -/
def checkRegistryPersistence (now : ℚ) (a : ProcessActivity) : Bool :=
  ¬ ((now - a.first_seen) / 60 > 10) && registryPersistenceAux a.registry_events

/-- `_check_multi_destination` with its condition constants. -/
def checkMultiDestination (a : ProcessActivity) : Bool :=
  ¬ (a.unique_destinations.length < 5) && ¬ (a.bytes_uploaded < 512 * 1024)

/-- The `ssh_key_patterns` / `exclude_processes` constants. -/
def sshKeyPatterns : List String := [".ssh/id_", ".ssh/known_hosts"]

/-- The file-access loop of `_check_ssh_key_access`. -/
def sshKeyAux : List FileAccess → Bool
  | [] => false
  | f :: rest =>
    match f.path with
    | .str s =>
        if sshKeyPatterns.any
            (fun sp => containsSubstr (pyToLower s) (pyToLower sp))
        then true else sshKeyAux rest
    | _ => false

/-- `_check_ssh_key_access`: a non-string activity name raises on
`.lower()` (non-match); an excluded SSH process name never matches. -/
def checkSshKeyAccess (a : ProcessActivity) : Bool :=
  match a.name with
  | .str n =>
      if (["ssh", "sshd", "ssh-agent", "git"].map pyToLower).contains
          (pyToLower n)
      then false
      else sshKeyAux a.file_accesses
  | _ => false

/-- `_evaluate_pattern`: dispatch through the `checkers` table; the
`trusted_process_anomaly` and `pid_hijack_attempt` patterns have no entry
there and never match. -/
def evaluatePattern (now : ℚ) (a : ProcessActivity) (p : HPattern) : Bool :=
  if p.name = "exfiltration_chain" then checkExfiltrationChain now a
  else if p.name = "credential_theft" then checkCredentialTheft a
  else if p.name = "rapid_file_enumeration" then checkRapidEnumeration now a
  else if p.name = "staging_behavior" then checkStagingBehavior a
  else if p.name = "registry_persistence" then checkRegistryPersistence now a
  else if p.name = "multi_destination_upload" then checkMultiDestination a
  else if p.name = "ssh_key_access" then checkSshKeyAccess a
  else false

/-- An alert dict produced by the heuristics engine. -/
structure HAlert where
  severity : AlertSeverity
  source : String
  description : String
  deriving DecidableEq

/-- The severity cascade of `analyze` (initial `HIGH` is always
overwritten). -/
def severityOfRisk (r : ℚ) : AlertSeverity :=
  if r ≥ 90 then .critical
  else if r ≥ 70 then .high
  else if r ≥ 50 then .medium
  else .low

/-- The cooldown key `f"{pattern_name}:{pid}"`. -/
def cooldownKey (pname : String) (pid : Value) : String :=
  pname ++ ":" ++ pid.pyStr

/-- `_is_on_cooldown` (missing keys default to 0). -/
def isOnCooldown (now : ℚ) (cds : List (String × ℚ)) (pname : String)
    (pid : Value) : Bool :=
  now - (lookupA cds (cooldownKey pname pid)).getD 0 < 60

/-- The state of a `HeuristicsEngine`: activities, cooldown table and the
configured correlation window (`heuristics.correlation_window_seconds`,
default 60). -/
structure HEngineState where
  activities : List (Value × ProcessActivity) := []
  cooldowns : List (String × ℚ) := []
  window : ℚ := 60
  deriving DecidableEq

/-- The pattern loop of `analyze`: skip patterns on cooldown; a match
appends one alert, arms the cooldown and raises the activity risk score. -/
def patternLoop (now : ℚ) (procName : String) (pid : Value) :
    List HPattern → ProcessActivity → List (String × ℚ) →
    List HAlert × ProcessActivity × List (String × ℚ)
  | [], a, cds => ([], a, cds)
  | p :: rest, a, cds =>
    if isOnCooldown now cds p.name pid then
      patternLoop now procName pid rest a cds
    else if evaluatePattern now a p then
      let al : HAlert :=
        ⟨severityOfRisk p.risk_score, "heuristics:" ++ p.name,
         p.description ++ " (Process: " ++ procName ++ ")"⟩
      let r := patternLoop now procName pid rest
        { a with risk_score := max a.risk_score p.risk_score }
        (updateA cds (cooldownKey p.name pid) now)
      (al :: r.1, r.2)
    else patternLoop now procName pid rest a cds

/-- `_cleanup_old_activities`: drop activities first seen before
`now − 2 × window`. -/
def cleanupOldActivities (now : ℚ) (st : HEngineState) : HEngineState :=
  { st with activities :=
      st.activities.filter (fun pa => ¬ (pa.2.first_seen < now - st.window * 2)) }

/-- `_get_or_create_activity`. -/
def getOrCreateActivity (now : ℚ) (st : HEngineState) (ev : MonitorEvent)
    (pid : Value) : ProcessActivity :=
  match lookupA st.activities pid with
  | some a => a
  | none =>
    { pid := pid, name := vGetD ev.data "process_name" (.str "unknown"),
      first_seen := now }

/-- The source dispatch of `analyze` onto the three recorders. -/
def recordBySource (now : ℚ) (ev : MonitorEvent) (a : ProcessActivity) :
    ProcessActivity :=
  if ev.source = "file_monitor" then recordFileEvent now a ev.data
  else if ev.source = "network_monitor" then recordNetworkEvent now a ev.data
  else if ev.source = "registry_monitor" then recordRegistryEvent now a ev.data
  else a

/-- The body of `analyze` once a non-`None` `pid` has been extracted:
get-or-create the activity, record the event by source, run the pattern
loop, store the activity back, clean up stale activities. -/
def analyzeCore (now : ℚ) (st : HEngineState) (ev : MonitorEvent)
    (pid : Value) : List HAlert × HEngineState :=
  let a1 := recordBySource now ev (getOrCreateActivity now st ev pid)
  let r := patternLoop now (vGetD ev.data "process_name" (.str "unknown")).pyStr
    pid heuristicPatterns a1 st.cooldowns
  let st1 : HEngineState :=
    { st with activities := updateA st.activities pid r.2.1,
              cooldowns := r.2.2 }
  (r.1, cleanupOldActivities now st1)

/-- `HeuristicsEngine.analyze`: early return when the payload has no `pid`
(or an explicit `None` one); otherwise `analyzeCore`.  All `time.time()`
readings within one call are the single `now`. -/
def analyze (now : ℚ) (st : HEngineState) (ev : MonitorEvent) :
    List HAlert × HEngineState :=
  match lookupA ev.data "pid" with
  | none => ([], st)
  | some Value.vnone => ([], st)
  | some pid => analyzeCore now st ev pid

/-- Iterated `analyze` (state only). -/
def runAnalyze (st : HEngineState) : List (ℚ × MonitorEvent) → HEngineState
  | [] => st
  | (t, e) :: rest => runAnalyze (analyze t st e).2 rest

/-- The per-call alert outputs of iterated `analyze`. -/
def analyzeTrace (st : HEngineState) :
    List (ℚ × MonitorEvent) → List (List HAlert)
  | [] => []
  | (t, e) :: rest => (analyze t st e).1 :: analyzeTrace (analyze t st e).2 rest

/-! ### Claim C10: events without a `pid` are inert; file events carry none -/

/-- C10: `analyze` on an event whose payload has no `pid` key returns no
alerts and leaves the engine state untouched; and every event the file
collector queues has no `pid` key, so file-collector events never touch
heuristics state. -/
theorem heuristics_no_pid_noop :
    (∀ (now : ℚ) (st : HEngineState) (ev : MonitorEvent),
      lookupA ev.data "pid" = none → analyze now st ev = ([], st)) ∧
    (∀ (exts : List String) (etype src : String) (dest : Option String)
        (e : MonitorEvent), e ∈ (createEvent exts etype src dest).2 →
      lookupA e.data "pid" = none ∧
        ∀ (now : ℚ) (st : HEngineState), analyze now st e = ([], st)) := by
  have h1 : ∀ (now : ℚ) (st : HEngineState) (ev : MonitorEvent),
      lookupA ev.data "pid" = none → analyze now st ev = ([], st) := by
    intro now st ev h
    simp [analyze, h]
  refine ⟨h1, ?_⟩
  intro exts etype src dest e he
  have hk : lookupA e.data "pid" = none := by
    rcases dest with _ | d
    · simp only [createEvent] at he
      split_ifs at he <;> simp_all [lookupA]
    · simp only [createEvent] at he
      split_ifs at he <;> simp_all [lookupA, updateA]
  exact ⟨hk, fun now st => h1 now st e hk⟩

/-- C10 witness: the sensitive `.env` modification event the file collector
queues contains no `pid` key and is a no-op for `analyze`. -/
theorem heuristics_no_pid_noop_witness :
    lookupA (MonitorEvent.mk "file_monitor" "file_modified"
        [("file_path", .str "/h/x.env"), ("event_type", .str "modified"),
         ("is_sensitive", .bool true)] 30).data "pid" = none ∧
    analyze 5 {} (MonitorEvent.mk "file_monitor" "file_modified"
        [("file_path", .str "/h/x.env"), ("event_type", .str "modified"),
         ("is_sensitive", .bool true)] 30) = ([], {}) := by
  have hmem : (MonitorEvent.mk "file_monitor" "file_modified"
      [("file_path", .str "/h/x.env"), ("event_type", .str "modified"),
       ("is_sensitive", .bool true)] 30) ∈
      (createEvent [".env"] "modified" "/h/x.env" none).2 := by
    have : isSensitiveFile [".env"] "/h/x.env" = true := by decide
    simp [createEvent, this]
  have h := heuristics_no_pid_noop.2 [".env"] "modified" "/h/x.env" none _ hmem
  exact ⟨h.1, h.2 5 {}⟩

/-! ### Claim C4: the activity buffers stay bounded, evicting oldest first -/

/-- Every retained activity respects the three buffer bounds. -/
def BuffersBounded (st : HEngineState) : Prop :=
  ∀ pa ∈ st.activities,
    pa.2.file_accesses.length ≤ 100 ∧
    pa.2.network_events.length ≤ 100 ∧
    pa.2.registry_events.length ≤ 50

theorem takeLast_length_le {α : Type} (n : ℕ) (l : List α) :
    (takeLast n l).length ≤ n := by
  simp only [takeLast, List.length_drop]
  omega

theorem lookupA_mem {α β : Type} [DecidableEq α] {l : List (α × β)} {k : α}
    {v : β} (h : lookupA l k = some v) : (k, v) ∈ l := by
  induction l with
  | nil => simp [lookupA] at h
  | cons p t ih =>
    rw [lookupA] at h
    split_ifs at h with hk
    · cases h
      cases p
      simp_all
    · exact List.mem_cons_of_mem _ (ih h)

theorem recordFileEvent_buffers (now : ℚ) (a : ProcessActivity)
    (d : List (String × Value)) :
    (recordFileEvent now a d).file_accesses.length ≤ 100 ∧
    (recordFileEvent now a d).network_events = a.network_events ∧
    (recordFileEvent now a d).registry_events = a.registry_events := by
  refine ⟨?_, rfl, rfl⟩
  simp only [recordFileEvent]
  split_ifs with hl
  · exact takeLast_length_le _ _
  · simp only [not_lt] at hl
    exact hl

theorem recordNetworkEvent_buffers (now : ℚ) (a : ProcessActivity)
    (d : List (String × Value)) :
    (recordNetworkEvent now a d).network_events.length ≤ 100 ∧
    (recordNetworkEvent now a d).file_accesses = a.file_accesses ∧
    (recordNetworkEvent now a d).registry_events = a.registry_events := by
  refine ⟨?_, rfl, rfl⟩
  simp only [recordNetworkEvent]
  split_ifs with hl
  · exact takeLast_length_le _ _
  · simp only [not_lt] at hl
    exact hl

theorem recordRegistryEvent_buffers (now : ℚ) (a : ProcessActivity)
    (d : List (String × Value)) :
    (recordRegistryEvent now a d).registry_events.length ≤ 50 ∧
    (recordRegistryEvent now a d).file_accesses = a.file_accesses ∧
    (recordRegistryEvent now a d).network_events = a.network_events := by
  refine ⟨?_, rfl, rfl⟩
  simp only [recordRegistryEvent]
  split_ifs with hl
  · exact takeLast_length_le _ _
  · simp only [not_lt] at hl
    exact hl

theorem patternLoop_buffers (now : ℚ) (pn : String) (pid : Value) :
    ∀ (ps : List HPattern) (a : ProcessActivity) (cds : List (String × ℚ)),
    (patternLoop now pn pid ps a cds).2.1.file_accesses = a.file_accesses ∧
    (patternLoop now pn pid ps a cds).2.1.network_events = a.network_events ∧
    (patternLoop now pn pid ps a cds).2.1.registry_events = a.registry_events := by
  intro ps
  induction ps with
  | nil => intro a cds; simp [patternLoop]
  | cons p rest ih =>
    intro a cds
    rw [patternLoop]
    split_ifs with h1 h2
    · exact ih a cds
    · exact ih _ _
    · exact ih a cds

theorem getOrCreateActivity_bounds (now : ℚ) (st : HEngineState)
    (ev : MonitorEvent) (pid : Value) (h : BuffersBounded st) :
    (getOrCreateActivity now st ev pid).file_accesses.length ≤ 100 ∧
    (getOrCreateActivity now st ev pid).network_events.length ≤ 100 ∧
    (getOrCreateActivity now st ev pid).registry_events.length ≤ 50 := by
  rw [getOrCreateActivity]
  rcases hl : lookupA st.activities pid with _ | a
  · simp
  · simpa using h _ (lookupA_mem hl)

theorem recordBySource_bounds (now : ℚ) (ev : MonitorEvent)
    (a : ProcessActivity)
    (h1 : a.file_accesses.length ≤ 100) (h2 : a.network_events.length ≤ 100)
    (h3 : a.registry_events.length ≤ 50) :
    (recordBySource now ev a).file_accesses.length ≤ 100 ∧
    (recordBySource now ev a).network_events.length ≤ 100 ∧
    (recordBySource now ev a).registry_events.length ≤ 50 := by
  rw [recordBySource]
  split_ifs
  · exact ⟨(recordFileEvent_buffers now a ev.data).1,
      (recordFileEvent_buffers now a ev.data).2.1 ▸ h2,
      (recordFileEvent_buffers now a ev.data).2.2 ▸ h3⟩
  · exact ⟨(recordNetworkEvent_buffers now a ev.data).2.1 ▸ h1,
      (recordNetworkEvent_buffers now a ev.data).1,
      (recordNetworkEvent_buffers now a ev.data).2.2 ▸ h3⟩
  · exact ⟨(recordRegistryEvent_buffers now a ev.data).2.1 ▸ h1,
      (recordRegistryEvent_buffers now a ev.data).2.2 ▸ h2,
      (recordRegistryEvent_buffers now a ev.data).1⟩
  · exact ⟨h1, h2, h3⟩

/-- The one-step bound transfer: the activity stored back during
`analyzeCore` has bounded buffers whenever the looked-up one does. -/
theorem analyzeCore_bounded (now : ℚ) (st : HEngineState) (ev : MonitorEvent)
    (pid : Value) (h : BuffersBounded st) :
    BuffersBounded (analyzeCore now st ev pid).2 := by
  intro pa hpa
  simp only [analyzeCore, cleanupOldActivities, updateA] at hpa
  have hpa1 := (List.mem_filter.mp hpa).1
  rcases List.mem_cons.mp hpa1 with hh | hh
  · have ha0 := getOrCreateActivity_bounds now st ev pid h
    have ha1 := recordBySource_bounds now ev _ ha0.1 ha0.2.1 ha0.2.2
    have hfin := patternLoop_buffers now
      (vGetD ev.data "process_name" (.str "unknown")).pyStr pid
      heuristicPatterns (recordBySource now ev (getOrCreateActivity now st ev pid))
      st.cooldowns
    subst hh
    exact ⟨hfin.1 ▸ ha1.1, hfin.2.1 ▸ ha1.2.1, hfin.2.2 ▸ ha1.2.2⟩
  · exact h _ (List.mem_of_mem_filter hh)

/-- `analyze` preserves the buffer bounds. -/
theorem analyze_bounded (now : ℚ) (st : HEngineState) (ev : MonitorEvent)
    (h : BuffersBounded st) : BuffersBounded (analyze now st ev).2 := by
  rcases hpid : lookupA ev.data "pid" with _ | pid
  · simpa [analyze, hpid] using h
  rcases pid with _ | n | q' | s | b | sl
  · simpa [analyze, hpid] using h
  all_goals
    simpa [analyze, hpid] using analyzeCore_bounded now st ev _ h

/-- C4: after any finite sequence of `analyze` calls from a state whose
activities respect the bounds (in particular the initial empty engine),
every retained activity has `file_accesses ≤ 100`, `network_events ≤ 100`
and `registry_events ≤ 50`; and each recorder evicts from the front
(the new buffer is a suffix of the old buffer plus the new entry). -/
theorem heuristics_buffers_bounded :
    (∀ (st0 : HEngineState) (calls : List (ℚ × MonitorEvent)),
      BuffersBounded st0 → BuffersBounded (runAnalyze st0 calls)) ∧
    (∀ (now : ℚ) (a : ProcessActivity) (d : List (String × Value)),
      (recordFileEvent now a d).file_accesses <:+
        a.file_accesses ++
          [⟨vGetD d "file_path" .vnone, vGetD d "event_type" .vnone, now,
            vGetD d "is_sensitive" (.bool false)⟩] ∧
      (recordNetworkEvent now a d).network_events <:+
        a.network_events ++
          [⟨vGetD d "remote_address" .vnone, vGetD d "remote_port" .vnone,
            vGetD d "bytes_uploaded" (.int 0), now⟩] ∧
      (recordRegistryEvent now a d).registry_events <:+
        a.registry_events ++
          [⟨vGetD d "key_path" .vnone, vGetD d "change_type" .vnone, now⟩]) := by
  constructor
  · intro st0 calls
    induction calls generalizing st0 with
    | nil => intro h; simpa [runAnalyze] using h
    | cons c rest ih =>
      intro h
      exact ih _ (analyze_bounded c.1 st0 c.2 h)
  · intro now a d
    refine ⟨?_, ?_, ?_⟩
    · simp only [recordFileEvent]
      split_ifs with hl
      · exact List.drop_suffix _ _
      · exact List.suffix_refl _
    · simp only [recordNetworkEvent]
      split_ifs with hl
      · exact List.drop_suffix _ _
      · exact List.suffix_refl _
    · simp only [recordRegistryEvent]
      split_ifs with hl
      · exact List.drop_suffix _ _
      · exact List.suffix_refl _

/-- C4 witness: running the engine from the empty state over a concrete
file event keeps every buffer within bounds. -/
theorem heuristics_buffers_bounded_witness :
    BuffersBounded (runAnalyze {}
      [(5, MonitorEvent.mk "file_monitor" "file_modified"
        [("pid", .int 4242), ("process_name", .str "thief"),
         ("file_path", .str "/h/a.env"), ("event_type", .str "modified"),
         ("is_sensitive", .bool true)] 30)]) :=
  heuristics_buffers_bounded.1 {} _ (by intro pa hpa; simp at hpa)

/-! ### Claim C3: the 60-second cooldown per (pattern, pid) -/

theorem heuristicsSource_inj {a b : String}
    (h : "heuristics:" ++ a = "heuristics:" ++ b) : a = b := by
  have hd := congrArg String.data h
  simp only [String.data_append] at hd
  exact String.ext (List.append_cancel_left hd)

/-- The pattern loop only writes cooldown entries with the current time. -/
theorem patternLoop_cd_cases (now : ℚ) (pn : String) (pid : Value) :
    ∀ (ps : List HPattern) (a : ProcessActivity) (cds : List (String × ℚ))
      (k : String),
    lookupA (patternLoop now pn pid ps a cds).2.2 k = lookupA cds k ∨
    lookupA (patternLoop now pn pid ps a cds).2.2 k = some now := by
  intro ps
  induction ps with
  | nil => intro a cds k; left; rfl
  | cons p rest ih =>
    intro a cds k
    rw [patternLoop]
    split_ifs with h1 h2
    · exact ih a cds k
    · simp only
      rcases ih { a with risk_score := max a.risk_score p.risk_score }
          (updateA cds (cooldownKey p.name pid) now) k with hc | hc
      · by_cases hk : k = cooldownKey p.name pid
        · right
          rw [hc, hk]
          exact lookupA_updateA_self _ _ _
        · left
          rw [hc]
          exact lookupA_updateA_ne _ _ _ _ hk
      · right
        exact hc
    · exact ih a cds k

theorem patternLoop_preserve_now (now : ℚ) (pn : String) (pid : Value)
    (ps : List HPattern) (a : ProcessActivity) (cds : List (String × ℚ))
    (k : String) (hk : lookupA cds k = some now) :
    lookupA (patternLoop now pn pid ps a cds).2.2 k = some now := by
  rcases patternLoop_cd_cases now pn pid ps a cds k with hc | hc
  · rw [hc]; exact hk
  · exact hc

/-- A pattern that fired left its cooldown entry at the current time. -/
theorem patternLoop_fired (now : ℚ) (pn : String) (pid : Value) :
    ∀ (ps : List HPattern) (a : ProcessActivity) (cds : List (String × ℚ))
      (pname : String),
    (∃ al ∈ (patternLoop now pn pid ps a cds).1,
      al.source = "heuristics:" ++ pname) →
    lookupA (patternLoop now pn pid ps a cds).2.2 (cooldownKey pname pid) =
      some now := by
  intro ps
  induction ps with
  | nil =>
    intro a cds pname hex
    obtain ⟨al, hmem, _⟩ := hex
    simp [patternLoop] at hmem
  | cons p rest ih =>
    intro a cds pname hex
    rw [patternLoop] at hex ⊢
    split_ifs at hex ⊢ with h1 h2
    · exact ih a cds pname hex
    · simp only at hex ⊢
      obtain ⟨al, hmem, hsrc⟩ := hex
      rcases List.mem_cons.mp hmem with rfl | hmem'
      · have hpn : p.name = pname := heuristicsSource_inj hsrc
        subst hpn
        exact patternLoop_preserve_now now pn pid rest _ _ _
          (lookupA_updateA_self _ _ _)
      · exact ih _ _ pname ⟨al, hmem', hsrc⟩
    · exact ih a cds pname hex

/-- A pattern whose cooldown entry is younger than 60 seconds produces no
alert in this loop run. -/
theorem patternLoop_skip (now : ℚ) (pn : String) (pid : Value) :
    ∀ (ps : List HPattern) (a : ProcessActivity) (cds : List (String × ℚ))
      (pname : String) (v : ℚ),
    lookupA cds (cooldownKey pname pid) = some v → now - v < 60 →
    ∀ al ∈ (patternLoop now pn pid ps a cds).1,
      al.source ≠ "heuristics:" ++ pname := by
  intro ps
  induction ps with
  | nil =>
    intro a cds pname v _ _ al hmem
    simp [patternLoop] at hmem
  | cons p rest ih =>
    intro a cds pname v hv hlt al hmem
    rw [patternLoop] at hmem
    split_ifs at hmem with h1 h2
    · exact ih a cds pname v hv hlt al hmem
    · simp only at hmem
      rcases List.mem_cons.mp hmem with rfl | hmem'
      · intro hsrc
        have hpn : p.name = pname := heuristicsSource_inj hsrc
        apply h1
        subst hpn
        simp only [isOnCooldown, hv, Option.getD_some]
        exact decide_eq_true hlt
      · by_cases hk : cooldownKey pname pid = cooldownKey p.name pid
        · refine ih _ _ pname now ?_ (by norm_num) al hmem'
          rw [hk]
          exact lookupA_updateA_self _ _ _
        · refine ih _ _ pname v ?_ hlt al hmem'
          rw [lookupA_updateA_ne _ _ _ _ hk]
          exact hv
    · exact ih a cds pname v hv hlt al hmem

/-- `(pattern p, pid q)` fired during a call: some returned alert carries
the pattern's source tag and the event belongs to PID `q`. -/
def callFires (out : List HAlert) (ev : MonitorEvent) (p : String)
    (q : Value) : Prop :=
  (∃ al ∈ out, al.source = "heuristics:" ++ p) ∧
    lookupA ev.data "pid" = some q

theorem analyzeCore_cd_cases (t : ℚ) (st : HEngineState) (e : MonitorEvent)
    (pid : Value) (k : String) :
    lookupA (analyzeCore t st e pid).2.cooldowns k = lookupA st.cooldowns k ∨
    lookupA (analyzeCore t st e pid).2.cooldowns k = some t :=
  patternLoop_cd_cases t (vGetD e.data "process_name" (.str "unknown")).pyStr
    pid heuristicPatterns
    (recordBySource t e (getOrCreateActivity t st e pid)) st.cooldowns k

theorem analyze_eq_core (t : ℚ) (st : HEngineState) (e : MonitorEvent)
    (pid : Value) (hpid : lookupA e.data "pid" = some pid)
    (hne : pid ≠ .vnone) : analyze t st e = analyzeCore t st e pid := by
  cases pid
  · exact absurd rfl hne
  all_goals simp [analyze, hpid]

theorem analyze_cd_cases (t : ℚ) (st : HEngineState) (e : MonitorEvent)
    (k : String) :
    lookupA (analyze t st e).2.cooldowns k = lookupA st.cooldowns k ∨
    lookupA (analyze t st e).2.cooldowns k = some t := by
  rcases hpid : lookupA e.data "pid" with _ | pid
  · left; simp [analyze, hpid]
  by_cases hne : pid = .vnone
  · subst hne; left; simp [analyze, hpid]
  · rw [analyze_eq_core t st e pid hpid hne]
    exact analyzeCore_cd_cases t st e pid k

theorem analyze_fired (t : ℚ) (st : HEngineState) (e : MonitorEvent)
    (p : String) (q : Value) (h : callFires (analyze t st e).1 e p q) :
    lookupA (analyze t st e).2.cooldowns (cooldownKey p q) = some t := by
  obtain ⟨hex, hpid⟩ := h
  by_cases hne : q = .vnone
  · subst hne
    obtain ⟨al, hmem, _⟩ := hex
    simp [analyze, hpid] at hmem
  · rw [analyze_eq_core t st e q hpid hne] at hex ⊢
    exact patternLoop_fired t _ _ heuristicPatterns _ st.cooldowns p hex

theorem analyze_skip (t : ℚ) (st : HEngineState) (e : MonitorEvent)
    (p : String) (q : Value) (v : ℚ)
    (hv : lookupA st.cooldowns (cooldownKey p q) = some v)
    (hlt : t - v < 60) : ¬ callFires (analyze t st e).1 e p q := by
  rintro ⟨⟨al, hmem, hsrc⟩, hpid⟩
  by_cases hne : q = .vnone
  · subst hne
    simp [analyze, hpid] at hmem
  · rw [analyze_eq_core t st e q hpid hne] at hmem
    exact patternLoop_skip t _ _ heuristicPatterns _ st.cooldowns p v hv hlt
      al hmem hsrc

/-- After the cooldown entry for `(p, q)` holds a time `≥ tf`, no later
call under a clock that never goes below `tf` re-fires `(p, q)` within 60
seconds of `tf`. -/
theorem trace_no_refire (p : String) (q : Value) (tf : ℚ) :
    ∀ (calls : List (ℚ × MonitorEvent)) (st : HEngineState),
    (∃ v, lookupA st.cooldowns (cooldownKey p q) = some v ∧ tf ≤ v) →
    (∀ s ∈ calls, tf ≤ s.1) →
    ∀ (j : ℕ) (hj : j < calls.length),
    (calls.get ⟨j, hj⟩).1 - tf < 60 →
    ¬ callFires ((analyzeTrace st calls).getD j [])
      (calls.get ⟨j, hj⟩).2 p q := by
  intro calls
  induction calls with
  | nil =>
    intro st _ _ j hj
    simp at hj
  | cons c rest ih =>
    intro st hinv hts j hj hwin
    obtain ⟨v, hv, htv⟩ := hinv
    cases j with
    | zero =>
      have hwin' : c.1 - v < 60 := by
        have : c.1 - tf < 60 := by simpa using hwin
        linarith
      have := analyze_skip c.1 st c.2 p q v hv hwin'
      simpa [analyzeTrace] using this
    | succ j' =>
      have hinv' : ∃ v', lookupA (analyze c.1 st c.2).2.cooldowns
          (cooldownKey p q) = some v' ∧ tf ≤ v' := by
        rcases analyze_cd_cases c.1 st c.2 (cooldownKey p q) with hc | hc
        · exact ⟨v, by rw [hc]; exact hv, htv⟩
        · exact ⟨c.1, hc, hts c (List.mem_cons_self _ _)⟩
      have := ih (analyze c.1 st c.2).2 hinv'
        (fun s hs => hts s (List.mem_cons_of_mem _ hs)) j'
        (by simpa using hj) (by simpa using hwin)
      simpa [analyzeTrace] using this

/-- C3: once `analyze` at time `t` produces a `(p, q)` alert, every later
`analyze` call whose (monotone) time lies within 60 seconds of `t`
produces no `(p, q)` alert — successive `(p, q)` alerts are at least 60
seconds apart. -/
theorem heuristics_cooldown_60s (st : HEngineState) (t : ℚ)
    (e : MonitorEvent) (rest : List (ℚ × MonitorEvent)) (p : String)
    (q : Value) (hfire : callFires (analyze t st e).1 e p q)
    (hmono : ∀ s ∈ rest, t ≤ s.1) (j : ℕ) (hj : j < rest.length)
    (hwin : (rest.get ⟨j, hj⟩).1 - t < 60) :
    ¬ callFires ((analyzeTrace (analyze t st e).2 rest).getD j [])
      (rest.get ⟨j, hj⟩).2 p q :=
  trace_no_refire p q t rest (analyze t st e).2
    ⟨t, analyze_fired t st e p q hfire, le_refl t⟩ hmono j hj hwin

/-- The credential-theft file event used to exercise the cooldown. -/
def c3Event : MonitorEvent :=
  ⟨"file_monitor", "file_modified",
   [("pid", .str "p7"), ("process_name", .str "thief"),
    ("file_path", .str "/h/Cookies"),
    ("event_type", .str "modified"), ("is_sensitive", .bool true)], 30⟩

set_option maxHeartbeats 1000000 in
theorem c3_hout : (analyze 1000 {} c3Event).1 =
    [⟨.critical, "heuristics:credential_theft",
      "Process accessing browser credential files (Process: thief)"⟩] := by
  have hpid : lookupA c3Event.data "pid" = some (.str "p7") := by
    simp [c3Event, lookupA]
  rw [analyze_eq_core 1000 {} c3Event (.str "p7") hpid (by simp)]
  have hrec : recordBySource 1000 c3Event
      (getOrCreateActivity 1000 {} c3Event (.str "p7")) =
      (⟨.str "p7", .str "thief", 1000,
        [⟨.str "/h/Cookies", .str "modified", 1000, .bool true⟩],
        [], [], 1, 0, [], 0⟩ : ProcessActivity) := by
    simp [recordBySource, recordFileEvent, getOrCreateActivity, vGetD,
      lookupA, takeLast, c3Event, Value.truthy]
  have e1 : ∀ rs : ℚ, evaluatePattern 1000
      (⟨.str "p7", .str "thief", 1000,
        [⟨.str "/h/Cookies", .str "modified", 1000, .bool true⟩],
        [], [], 1, 0, [], rs⟩ : ProcessActivity)
      ⟨"exfiltration_chain",
       "New process accessing sensitive files and uploading data", 80⟩ = false := by
    intro rs
    simp [evaluatePattern]
    norm_num [checkExfiltrationChain]
  have e2 : ∀ rs : ℚ, evaluatePattern 1000
      (⟨.str "p7", .str "thief", 1000,
        [⟨.str "/h/Cookies", .str "modified", 1000, .bool true⟩],
        [], [], 1, 0, [], rs⟩ : ProcessActivity)
      ⟨"credential_theft", "Process accessing browser credential files", 90⟩ = true := by
    intro rs
    have haux : credentialTheftAux
        [⟨.str "/h/Cookies", .str "modified", 1000, .bool true⟩] = true := by
      decide
    simp [evaluatePattern]
    simp [checkCredentialTheft, haux]
  have e3 : ∀ rs : ℚ, evaluatePattern 1000
      (⟨.str "p7", .str "thief", 1000,
        [⟨.str "/h/Cookies", .str "modified", 1000, .bool true⟩],
        [], [], 1, 0, [], rs⟩ : ProcessActivity)
      ⟨"rapid_file_enumeration", "Process rapidly accessing many files", 60⟩ = false := by
    intro rs
    simp [evaluatePattern]
    norm_num [checkRapidEnumeration]
  have e4 : ∀ rs : ℚ, evaluatePattern 1000
      (⟨.str "p7", .str "thief", 1000,
        [⟨.str "/h/Cookies", .str "modified", 1000, .bool true⟩],
        [], [], 1, 0, [], rs⟩ : ProcessActivity)
      ⟨"staging_behavior",
       "Process copying files to temp folder before network activity", 70⟩ = false := by
    intro rs
    have haux : stagingWrites
        [⟨.str "/h/Cookies", .str "modified", 1000, .bool true⟩] = some [] := by
      decide
    simp [evaluatePattern]
    simp [checkStagingBehavior, haux]
  have e5 : ∀ rs : ℚ, evaluatePattern 1000
      (⟨.str "p7", .str "thief", 1000,
        [⟨.str "/h/Cookies", .str "modified", 1000, .bool true⟩],
        [], [], 1, 0, [], rs⟩ : ProcessActivity)
      ⟨"registry_persistence", "New process modifying startup registry keys", 85⟩ = false := by
    intro rs
    simp [evaluatePattern]
    norm_num [checkRegistryPersistence, registryPersistenceAux]
  have e6 : ∀ rs : ℚ, evaluatePattern 1000
      (⟨.str "p7", .str "thief", 1000,
        [⟨.str "/h/Cookies", .str "modified", 1000, .bool true⟩],
        [], [], 1, 0, [], rs⟩ : ProcessActivity)
      ⟨"multi_destination_upload",
       "Process uploading to multiple unique destinations", 65⟩ = false := by
    intro rs
    simp [evaluatePattern]
    norm_num [checkMultiDestination]
  have e7 : ∀ rs : ℚ, evaluatePattern 1000
      (⟨.str "p7", .str "thief", 1000,
        [⟨.str "/h/Cookies", .str "modified", 1000, .bool true⟩],
        [], [], 1, 0, [], rs⟩ : ProcessActivity)
      ⟨"ssh_key_access", "Non-SSH process accessing SSH keys", 75⟩ = false := by
    intro rs
    have haux : sshKeyAux
        [⟨.str "/h/Cookies", .str "modified", 1000, .bool true⟩] = false := by
      decide
    have hexcl : ((["ssh", "sshd", "ssh-agent", "git"].map pyToLower).contains
        (pyToLower "thief")) = false := by decide
    simp [evaluatePattern]
    simp [checkSshKeyAccess, haux, hexcl]
  have e8 : ∀ rs : ℚ, evaluatePattern 1000
      (⟨.str "p7", .str "thief", 1000,
        [⟨.str "/h/Cookies", .str "modified", 1000, .bool true⟩],
        [], [], 1, 0, [], rs⟩ : ProcessActivity)
      ⟨"trusted_process_anomaly",
       "Trusted process exhibiting unusual behavior (potential hijacking/injection)", 70⟩ = false := by
    intro rs
    simp [evaluatePattern]
  have e9 : ∀ rs : ℚ, evaluatePattern 1000
      (⟨.str "p7", .str "thief", 1000,
        [⟨.str "/h/Cookies", .str "modified", 1000, .bool true⟩],
        [], [], 1, 0, [], rs⟩ : ProcessActivity)
      ⟨"pid_hijack_attempt",
       "Process identity changed or PID reused suspiciously", 95⟩ = false := by
    intro rs
    simp [evaluatePattern]
  have hcd0 : ∀ (pname : String) (pid : Value),
      isOnCooldown 1000 [] pname pid = false := by
    intro pname pid
    simp only [isOnCooldown, lookupA, Option.getD_none]
    norm_num
  have hcds1 : ∀ (pname : String),
      isOnCooldown 1000 [("credential_theft:p7", 1000)] pname (.str "p7") =
        (pname = "credential_theft") := by
    intro pname
    by_cases hp : pname = "credential_theft"
    · subst hp
      simp [isOnCooldown, cooldownKey, Value.pyStr, lookupA]
      try norm_num
    · have hk : cooldownKey pname (.str "p7") ≠ "credential_theft:p7" := by
        intro hk
        apply hp
        have hd := congrArg String.data hk
        simp only [cooldownKey, Value.pyStr, String.data_append] at hd
        have : pname.data ++ (":p7" : String).data =
            ("credential_theft" : String).data ++ (":p7" : String).data := by
          simpa using hd
        exact String.ext (List.append_cancel_right this)
      simp only [isOnCooldown, lookupA, if_neg hk, Option.getD_none]
      norm_num [hp]
  have hsev : severityOfRisk 90 = .critical := by
    norm_num [severityOfRisk]
  have hpn : (vGetD c3Event.data "process_name" (.str "unknown")).pyStr = "thief" := by
    simp [vGetD, c3Event, lookupA, Value.pyStr]
  show (patternLoop 1000 (vGetD c3Event.data "process_name" (.str "unknown")).pyStr
      (.str "p7") heuristicPatterns
      (recordBySource 1000 c3Event (getOrCreateActivity 1000 {} c3Event (.str "p7")))
      ({} : HEngineState).cooldowns).1 = _
  rw [hrec, hpn]
  simp [patternLoop, heuristicPatterns, hcd0, hcds1, hsev, updateA,
    cooldownKey, Value.pyStr, e1, e2, e3, e4, e5, e6, e7, e8, e9]

theorem heuristics_cooldown_60s_witness :
    callFires (analyze 1000 {} c3Event).1 c3Event "credential_theft"
      (.str "p7") ∧
    ¬ callFires ((analyzeTrace (analyze 1000 {} c3Event).2
        [(1010, c3Event)]).getD 0 [])
      (([(1010, c3Event)] : List (ℚ × MonitorEvent)).get
        ⟨0, by norm_num⟩).2 "credential_theft" (.str "p7") := by
  have hfire : callFires (analyze 1000 {} c3Event).1 c3Event
      "credential_theft" (.str "p7") := by
    refine ⟨⟨⟨.critical, "heuristics:credential_theft",
      "Process accessing browser credential files (Process: thief)"⟩,
      ?_, ?_⟩, ?_⟩
    · rw [c3_hout]
      simp
    · decide
    · simp [c3Event, lookupA]
  refine ⟨hfire, heuristics_cooldown_60s {} 1000 c3Event [(1010, c3Event)]
    "credential_theft" (.str "p7") hfire ?_ 0 (by norm_num) ?_⟩
  · intro s hs
    simp only [List.mem_singleton] at hs
    subst hs
    norm_num
  · norm_num

/-! ### Rules engine (`detection/rules_engine.py`) -/

/-- `RuleType`. -/
inductive RuleType where
  | process | network | file | registry
  deriving DecidableEq

/-- `Rule` dataclass.  The per-rule `conditions` dicts hold configuration
constants that the evaluation functions below read back; they are carried
by `RulesConfig` / inlined instead. -/
structure Rule where
  name : String
  rule_type : RuleType
  description : String
  severity : AlertSeverity
  enabled : Bool := true
  deriving DecidableEq

/-- The configuration values captured into the built-in rules' conditions
(`config.suspicious_process_names`, `config.suspicious_ports`,
`config.max_upload_mb_per_min`). -/
structure RulesConfig where
  suspicious_process_names : List String := []
  suspicious_ports : List ℤ := []
  max_upload_mb_per_min : ℤ := 50
  deriving DecidableEq

/-- The eight built-in rules of `_load_default_rules`, in order. -/
def defaultRules : List Rule :=
  [⟨"suspicious_process_name", .process,
    "Process with known malicious name detected", .critical, true⟩,
   ⟨"suspicious_port_connection", .network,
    "Connection to suspicious port detected", .high, true⟩,
   ⟨"high_upload_rate", .network,
    "Abnormally high data upload detected", .high, true⟩,
   ⟨"sensitive_file_access", .file,
    "Access to sensitive file detected", .medium, true⟩,
   ⟨"untrusted_process", .process,
    "New untrusted process started", .low, false⟩,
   ⟨"registry_run_key_modified", .registry,
    "Startup registry key modified", .high, true⟩,
   ⟨"high_connection_count", .process,
    "Process has excessive network connections", .medium, true⟩,
   ⟨"high_io_activity", .process,
    "Process has abnormally high I/O activity", .medium, true⟩]

/-- An alert dict produced by `RulesEngine.evaluate`. -/
structure RuleAlert where
  severity : AlertSeverity
  source : String
  description : String
  details : List (String × Value)
  deriving DecidableEq

/-- `event_data.get(k, dflt)` read as a string (`.lower()` on a non-string
value would raise in Python; collector payloads always supply strings
here). -/
def getStrD (d : List (String × Value)) (k : String) (dflt : String) :
    String :=
  match lookupA d k with
  | some (.str s) => s
  | _ => dflt

/-- `event_data.get(k, 0)`-style numeric read (a non-numeric value would
raise on comparison in Python; collector payloads are numeric here). -/
def numD (d : List (String × Value)) (k : String) (dflt : ℚ) : ℚ :=
  ((vGetD d k (.rat dflt)).asNum).getD dflt

/-- `RulesEngine._evaluate_process_rule`: `some details` on a match. -/
def evaluateProcessRule (cfg : RulesConfig) (r : Rule)
    (d : List (String × Value)) : Option (List (String × Value)) :=
  let process_name := pyToLower (getStrD d "process_name" "")
  if r.name = "suspicious_process_name" then
    if (cfg.suspicious_process_names.map pyToLower).contains process_name then
      some [("process_name", .str process_name)]
    else none
  else if r.name = "untrusted_process" then
    if (vGetD d "is_trusted" (.bool true)).truthy = false then
      some [("process_name", .str process_name), ("path", vGetD d "path" .vnone)]
    else none
  else if r.name = "high_connection_count" then
    if numD d "num_connections" 0 > 100 then
      some [("process_name", .str process_name),
            ("num_connections", vGetD d "num_connections" (.int 0))]
    else none
  else if r.name = "high_io_activity" then
    if numD d "read_bytes_delta" 0 > 10 * 1024 * 1024 ∨
        numD d "write_bytes_delta" 0 > 10 * 1024 * 1024 then
      some [("process_name", .str process_name),
            ("read_mb", .rat (pyRound2 (numD d "read_bytes_delta" 0 / (1024 * 1024)))),
            ("write_mb", .rat (pyRound2 (numD d "write_bytes_delta" 0 / (1024 * 1024))))]
    else none
  else none

/-- `RulesEngine._evaluate_network_rule`.  Python's `remote_port in
suspicious_ports` compares with `==`, which is numeric equality and never
raises. -/
def evaluateNetworkRule (cfg : RulesConfig) (r : Rule)
    (d : List (String × Value)) : Option (List (String × Value)) :=
  if r.name = "suspicious_port_connection" then
    if cfg.suspicious_ports.any
        (fun sp => (vGetD d "remote_port" (.int 0)).asNum = some (sp : ℚ)) then
      some [("remote_port", vGetD d "remote_port" (.int 0)),
            ("remote_address", vGetD d "remote_address" .vnone),
            ("process_name", vGetD d "process_name" .vnone)]
    else none
  else if r.name = "high_upload_rate" then
    if numD d "mb_uploaded" 0 > (cfg.max_upload_mb_per_min : ℚ) then
      some [("mb_uploaded", vGetD d "mb_uploaded" (.int 0)),
            ("threshold", .int cfg.max_upload_mb_per_min),
            ("process_name", vGetD d "process_name" .vnone)]
    else none
  else none

/-- `RulesEngine._evaluate_file_rule`. -/
def evaluateFileRule (r : Rule) (d : List (String × Value)) :
    Option (List (String × Value)) :=
  if r.name = "sensitive_file_access" then
    if (vGetD d "is_sensitive" (.bool false)).truthy then
      some [("file_path", vGetD d "file_path" .vnone),
            ("event_type", vGetD d "event_type" .vnone)]
    else none
  else none

/-- `RulesEngine._evaluate_registry_rule` (patterns `Run` / `RunOnce`,
case sensitive `in`). -/
def evaluateRegistryRule (r : Rule) (d : List (String × Value)) :
    Option (List (String × Value)) :=
  if r.name = "registry_run_key_modified" then
    if (["Run", "RunOnce"] : List String).any
        (fun pat => containsSubstr (getStrD d "key_path" "") pat) then
      some [("key_path", .str (getStrD d "key_path" "")),
            ("value_name", vGetD d "value_name" .vnone),
            ("change_type", vGetD d "change_type" .vnone)]
    else none
  else none

/-- The `source_to_type` table of `evaluate`. -/
def sourceToType (s : String) : Option RuleType :=
  if s = "process_monitor" then some .process
  else if s = "network_monitor" then some .network
  else if s = "file_monitor" then some .file
  else if s = "registry_monitor" then some .registry
  else none

/-- `RulesEngine.evaluate`: skip disabled rules and rules whose scope does
not match the event's source; a match contributes one alert tagged
`rules_engine:<name>`. -/
def rulesEvaluate (cfg : RulesConfig) (rules : List Rule)
    (ev : MonitorEvent) : List RuleAlert :=
  rules.flatMap (fun r =>
    if r.enabled = false then []
    else if sourceToType ev.source ≠ some r.rule_type then []
    else
      match (match r.rule_type with
        | .process => evaluateProcessRule cfg r ev.data
        | .network => evaluateNetworkRule cfg r ev.data
        | .file => evaluateFileRule r ev.data
        | .registry => evaluateRegistryRule r ev.data) with
      | some details =>
        [⟨r.severity, "rules_engine:" ++ r.name, r.description, details⟩]
      | none => [])

/-! ### Claim C5: alert source tags -/

/-- The spec's suspicious-port scenario event (PID 50, remote
`203.0.113.5:4444`). -/
def c5Event : MonitorEvent :=
  ⟨"network_monitor", "suspicious_port",
   [("pid", .int 50), ("process_name", .str "x"),
    ("remote_address", .str "203.0.113.5"), ("remote_port", .int 4444),
    ("local_port", .int 55555)], 60⟩

/-- C5 counterexample: the suspicious-port network event yields exactly one
alert, and its source tag is `rules_engine:suspicious_port_connection` —
not the `rules:suspicious_port_connection` the claim states. -/
theorem rules_source_tag_counterexample :
    (rulesEvaluate ⟨[], [4444], 50⟩ defaultRules c5Event).map
        RuleAlert.source = ["rules_engine:suspicious_port_connection"] ∧
    "rules_engine:suspicious_port_connection" ≠
      "rules:suspicious_port_connection" := by
  constructor
  · have hmb : numD [("pid", Value.int 50), ("process_name", Value.str "x"),
        ("remote_address", Value.str "203.0.113.5"),
        ("remote_port", Value.int 4444), ("local_port", Value.int 55555)]
        "mb_uploaded" 0 = 0 := by
      simp [numD, vGetD, lookupA, Value.asNum]
    have hgt : ¬ ((50 : ℚ) < 0) := by norm_num
    simp [rulesEvaluate, defaultRules, sourceToType, c5Event,
      evaluateNetworkRule, vGetD, lookupA, Value.asNum, hmb, hgt]
  · decide

theorem patternLoop_sources (now : ℚ) (pn : String) (pid : Value) :
    ∀ (ps : List HPattern) (a : ProcessActivity) (cds : List (String × ℚ))
      (al : HAlert), al ∈ (patternLoop now pn pid ps a cds).1 →
    ∃ p ∈ ps, al.source = "heuristics:" ++ p.name := by
  intro ps
  induction ps with
  | nil => intro a cds al hmem; simp [patternLoop] at hmem
  | cons p rest ih =>
    intro a cds al hmem
    rw [patternLoop] at hmem
    split_ifs at hmem with h1 h2
    · obtain ⟨p', hp', hs⟩ := ih a cds al hmem
      exact ⟨p', List.mem_cons_of_mem _ hp', hs⟩
    · simp only at hmem
      rcases List.mem_cons.mp hmem with rfl | hmem'
      · exact ⟨p, List.mem_cons_self _ _, rfl⟩
      · obtain ⟨p', hp', hs⟩ := ih _ _ al hmem'
        exact ⟨p', List.mem_cons_of_mem _ hp', hs⟩
    · obtain ⟨p', hp', hs⟩ := ih a cds al hmem
      exact ⟨p', List.mem_cons_of_mem _ hp', hs⟩

/-- C5 (amended): every rules-engine alert carries source
`rules_engine:<rule name>` (for an enabled rule of the engine's list) and
every heuristics alert carries `heuristics:<pattern name>`; a network event
whose remote port is among the configured suspicious ports yields an alert
with source exactly `rules_engine:suspicious_port_connection` and severity
HIGH. -/
theorem alert_source_tags :
    (∀ (cfg : RulesConfig) (rules : List Rule) (ev : MonitorEvent)
        (al : RuleAlert), al ∈ rulesEvaluate cfg rules ev →
      ∃ r ∈ rules, r.enabled = true ∧ al.source = "rules_engine:" ++ r.name ∧
        al.severity = r.severity) ∧
    (∀ (now : ℚ) (st : HEngineState) (ev : MonitorEvent) (al : HAlert),
        al ∈ (analyze now st ev).1 →
      ∃ p ∈ heuristicPatterns, al.source = "heuristics:" ++ p.name) ∧
    (∀ (cfg : RulesConfig) (ev : MonitorEvent),
        ev.source = "network_monitor" →
        cfg.suspicious_ports.any
          (fun sp => (vGetD ev.data "remote_port" (.int 0)).asNum =
            some (sp : ℚ)) = true →
      ∃ al ∈ rulesEvaluate cfg defaultRules ev,
        al.source = "rules_engine:suspicious_port_connection" ∧
          al.severity = .high) := by
  refine ⟨?_, ?_, ?_⟩
  · intro cfg rules ev al hmem
    rw [rulesEvaluate] at hmem
    obtain ⟨r, hr, hal⟩ := List.mem_flatMap.mp hmem
    refine ⟨r, hr, ?_⟩
    split_ifs at hal with h1 h2
    · simp at hal
    · simp at hal
    · rcases hd : (match r.rule_type with
        | .process => evaluateProcessRule cfg r ev.data
        | .network => evaluateNetworkRule cfg r ev.data
        | .file => evaluateFileRule r ev.data
        | .registry => evaluateRegistryRule r ev.data) with _ | details
      · rw [hd] at hal; simp at hal
      · rw [hd] at hal
        rcases List.mem_singleton.mp hal with rfl
        exact ⟨Bool.not_eq_false _ |>.mp h1, rfl, rfl⟩
  · intro now st ev al hmem
    rcases hpid : lookupA ev.data "pid" with _ | pid
    · simp [analyze, hpid] at hmem
    by_cases hne : pid = .vnone
    · subst hne; simp [analyze, hpid] at hmem
    · rw [analyze_eq_core now st ev pid hpid hne] at hmem
      exact patternLoop_sources now _ pid heuristicPatterns _ st.cooldowns
        al hmem
  · intro cfg ev hsrc hport
    refine ⟨⟨.high, "rules_engine:suspicious_port_connection",
      "Connection to suspicious port detected",
      [("remote_port", vGetD ev.data "remote_port" (.int 0)),
       ("remote_address", vGetD ev.data "remote_address" .vnone),
       ("process_name", vGetD ev.data "process_name" .vnone)]⟩, ?_, rfl, rfl⟩
    rw [rulesEvaluate]
    apply List.mem_flatMap.mpr
    refine ⟨⟨"suspicious_port_connection", .network,
      "Connection to suspicious port detected", .high, true⟩,
      by simp [defaultRules], ?_⟩
    simp [hsrc, sourceToType, evaluateNetworkRule, hport]

/-- C5 witness: the concrete port-4444 event under config
`suspicious_ports = [4444]`. -/
theorem alert_source_tags_witness :
    ∃ al ∈ rulesEvaluate ⟨[], [4444], 50⟩ defaultRules c5Event,
      al.source = "rules_engine:suspicious_port_connection" ∧
        al.severity = .high :=
  alert_source_tags.2.2 ⟨[], [4444], 50⟩ c5Event rfl
    (by simp [c5Event, vGetD, lookupA, Value.asNum])

end Leatt
